import Mathlib

/-!
# Verification of the unified chat-history rendering module

Shallow embedding of the two `chat-history.js` source files (a card-layout
variant and a table-layout variant).  JavaScript records are modelled with
`Option`-typed fields where `none` stands for an absent/`null`/`undefined`
field (this module never distinguishes `null` from `undefined`: every access
goes through `??`, `||`, `Boolean(...)`, or a truthiness test, all of which
treat both alike).  String fields keep the empty string as `some ""` because
`||` and `??` differ on it.  Template-literal interpolation becomes string
concatenation; `document.createElement` plus `classList`/`innerHTML` becomes
a record holding the tag, the class list and the inner HTML string.
-/

/-! ## JavaScript value helpers -/

/-- Truthiness of an optional string field (`undefined`, `null` and `""` are
falsy). -/
def strTruthy : Option String → Bool
  | some s => s ≠ ""
  | none => false

/-- Truthiness of an optional integer field (`undefined`, `null` and `0` are
falsy); this is the `Boolean(x)` coercion used for identifiers. -/
def intTruthy : Option Int → Bool
  | some n => n ≠ 0
  | none => false

/-- JavaScript `x || d` for an optional string `x` and string default `d`. -/
def jsOrStr (v : Option String) (d : String) : String :=
  if strTruthy v then v.getD "" else d

/-- JavaScript `x || y` for two optional strings (used for
`message.from_name || message.peer_title` and the avatar fallbacks). -/
def jsOrOpt (a b : Option String) : Option String :=
  if strTruthy a then a else b

/-- JavaScript `options.flag !== false` (absent and `null` count as `true`). -/
def neqFalse : Option Bool → Bool
  | some false => false
  | _ => true

/-- Template-literal interpolation of an optional integer
(`null`/`undefined` are conflated and render as `"undefined"`; every use in
the sources except the delete button guards the value by truthiness first). -/
def jsNumToStr : Option Int → String
  | some n => toString n
  | none => "undefined"

/-- JavaScript `s.slice(0, n)` on a string (hard cut, no ellipsis). -/
def jsSlice (s : String) (n : Nat) : String :=
  String.mk (s.data.take n)

/-! ## Data model -/

/-- The reduced quoted-message record (`message.reply`). -/
structure Reply where
  id : Option Int
  text : Option String
  from_id : Option Int
  from_name : Option String
  from_avatar : Option String
  is_bot : Bool
  attachments : Option (List String)
deriving Repr

/-- A chat-message record as consumed by the rendering layer.  Attachment and
copy-history descriptors are opaque strings. -/
structure Message where
  id : Option Int
  peer_id : Option Int
  peer_title : Option String
  peer_avatar : Option String
  from_id : Option Int
  from_name : Option String
  from_avatar : Option String
  is_bot : Bool
  text : Option String
  created_at : Option String
  is_deleted : Bool
  attachments : Option (List String)
  copy_history : Option (List String)
  reply : Option Reply
  message_id : Option Int
deriving Repr

/-- Options record for `buildPeerCell`. -/
structure PeerOptions where
  allowLink : Option Bool := none
deriving Repr

/-- Options record for `buildSenderCell`. -/
structure SenderOptions where
  allowLink : Option Bool := none
  showBotBadge : Option Bool := none
deriving Repr

/-- Options record for `buildReplyPreview`. -/
structure ReplyOptions where
  mode : Option String := none
  peerId : Option Int := none

/-- Options record for the row builders (`formatDate` is a function field, so
its presence check `options.formatDate || default` is a presence test). -/
structure RowOptions where
  isNew : Bool := false
  formatDate : Option (Option String → String) := none
  showChatColumn : Bool := false
  showSenderColumn : Bool := false

/-- The optional capability set of the external gallery collaborator.  The
registration operation has an external effect, so only its presence is part
of the collaborator value; the call the layer makes is returned as an event. -/
structure GalleryApi where
  extractAttachments : Option (Message → List String)
  extractCopyHistory : Option (Message → List String)
  registerMessageGallery : Bool
  buildContentCell : Option (List String → List String → String → String)

/-- Result record of `prepareGalleryContent`. -/
structure PrepResult where
  contentCell : String
  normalizedAttachments : List String
  normalizedCopyHistory : List String
deriving Repr

/-- A registration call made to the gallery collaborator: the (fresh) message
object passed and the gallery key. -/
abbrev RegEvent := Option (Message × String)

/-- A DOM element produced by a row builder: tag name, class list and inner
HTML. -/
structure RenderedRow where
  tag : String
  classes : List String
  innerHTML : String
deriving Repr

/-- `const placeholder = '<span class="text-secondary">—</span>'` — shared by
both source files. -/
def placeholder : String := "<span class=\"text-secondary\">—</span>"

/-! ## Shared builders (identical in both source files) -/

/-- `buildAvatarLabel(label, avatarUrl)`. -/
def buildAvatarLabel (label avatarUrl : Option String) : String :=
  let safeLabel := jsOrStr label "—"
  if strTruthy avatarUrl then
    "<span class=\"d-inline-flex align-items-center gap-2\"><img src=\"" ++
      avatarUrl.getD "" ++
      "\" alt=\"Аватар\" class=\"avatar-inline\" loading=\"lazy\" /> <span>" ++
      safeLabel ++ "</span></span>"
  else
    safeLabel

/-- `buildPeerCell(message, options)`. -/
def buildPeerCell (message : Message) (options : PeerOptions) : String :=
  let chatName := jsOrStr message.peer_title "Чат без названия"
  let avatarUrl := message.peer_avatar
  let allowLink := neqFalse options.allowLink
  let hasId := intTruthy message.peer_id
  if allowLink && hasId then
    "<a href=\"/chat/" ++ jsNumToStr message.peer_id ++
      "\" target=\"_blank\" class=\"text-decoration-none text-light d-inline-flex align-items-center gap-2\">" ++
      buildAvatarLabel (some chatName) avatarUrl ++ "</a>"
  else
    buildAvatarLabel (some chatName) avatarUrl

/-- `buildSenderCell(message, options)`. -/
def buildSenderCell (message : Message) (options : SenderOptions) : String :=
  let senderName := jsOrStr message.from_name "Неизвестный отправитель"
  let avatarUrl := message.from_avatar
  let allowLink := neqFalse options.allowLink
  let showBotBadge := neqFalse options.showBotBadge
  let botBadge :=
    if message.is_bot && showBotBadge then "<span class=\"sender-badge\">Бот</span>" else ""
  let baseLabel := buildAvatarLabel (some senderName) avatarUrl
  let hasId := intTruthy message.from_id
  if allowLink && hasId then
    "<div class=\"d-flex align-items-center gap-2 flex-wrap\"><a href=\"/user/" ++
      jsNumToStr message.from_id ++
      "\" target=\"_blank\" class=\"text-decoration-none text-light d-inline-flex align-items-center gap-2\">" ++
      baseLabel ++ "</a>" ++ botBadge ++ "</div>"
  else
    "<div class=\"d-flex align-items-center gap-2 flex-wrap\">" ++ baseLabel ++ botBadge ++ "</div>"

/-- `buildReplyPreview(reply, options)`. -/
def buildReplyPreview (reply : Option Reply) (options : ReplyOptions) : String :=
  match reply with
  | none => placeholder
  | some reply =>
    let mode := jsOrStr options.mode "compact"
    if mode = "detailed" then
      if !intTruthy reply.id && !strTruthy reply.text && !intTruthy reply.from_id then
        placeholder
      else
        let replyId := match reply.id with | some n => toString n | none => "—"
        let replyText :=
          if strTruthy reply.text then jsSlice (reply.text.getD "") 120 else "Без текста"
        let replyAuthorLabel :=
          if strTruthy reply.from_name then
            reply.from_name.getD "" ++ " (ID: " ++
              (match reply.from_id with | some n => toString n | none => "—") ++ ")"
          else if intTruthy reply.from_id then
            "ID: " ++ jsNumToStr reply.from_id
          else
            "Автор неизвестен"
        let replyAuthorCell := buildAvatarLabel (some replyAuthorLabel) reply.from_avatar
        let peerId := options.peerId
        let replyLink :=
          if intTruthy reply.id && intTruthy peerId then
            "<a href=\"https://vk.com/im?sel=" ++ jsNumToStr peerId ++ "&msgid=" ++
              jsNumToStr reply.id ++ "\" target=\"_blank\" rel=\"noopener noreferrer\">#" ++
              jsNumToStr reply.id ++ "</a>"
          else
            "#" ++ replyId
        let replyAttachmentsCount := match reply.attachments with | some l => l.length | none => 0
        let replyAttachmentsLabel :=
          if replyAttachmentsCount ≠ 0 then toString replyAttachmentsCount ++ " влож."
          else "Без вложений"
        "<div class=\"d-flex flex-column gap-1\"><div class=\"d-flex align-items-center gap-2\">" ++
          replyLink ++ "<span class=\"text-secondary small\">" ++ replyAttachmentsLabel ++
          "</span></div><div class=\"text-secondary small\">" ++ replyText ++
          "</div><div class=\"text-secondary small\">" ++ replyAuthorCell ++ "</div></div>"
    else
      let hasReadableData := strTruthy reply.text || strTruthy reply.from_name
      if !hasReadableData then
        placeholder
      else
        let replyText :=
          if strTruthy reply.text then jsSlice (reply.text.getD "") 120 else "Без текста"
        let replyAuthorName := jsOrStr reply.from_name "Автор не указан"
        let replyBotBadge :=
          if reply.is_bot then "<span class=\"sender-badge\">Бот</span>" else ""
        "<div class=\"d-flex flex-column gap-1\"><div class=\"text-secondary small\">Ответ на предыдущее сообщение</div><div class=\"text-light small\">" ++
          replyText ++ "</div><div class=\"d-flex align-items-center gap-2 text-secondary small\">" ++
          replyAuthorName ++ replyBotBadge ++ "</div></div>"

/-- JavaScript `a || b` where `a` is already a string (used for
`textCell || placeholder`). -/
def jsStrOr (a b : String) : String :=
  if a = "" then b else a

/-- The default time formatter `(value) => value || '—'` or the injected one. -/
def resolveFormatDate (options : RowOptions) : Option String → String :=
  match options.formatDate with
  | some f => f
  | none => fun value => jsOrStr value "—"

/-- `Boolean(message.reply && (message.reply.text || message.reply.from_name
|| message.reply.from_id))` — shared by both card builders that emit a reply
block. -/
def hasContentfulReply (reply : Option Reply) : Bool :=
  match reply with
  | some r => strTruthy r.text || strTruthy r.from_name || intTruthy r.from_id
  | none => false

namespace Card

/-- `prepareGalleryContent` of the card-layout source file (missing
`buildContentCell` falls back to the empty string). -/
def prepareGalleryContent (message : Message) (galleryApi : Option GalleryApi)
    (galleryKey : String) : PrepResult × RegEvent :=
  let normalizedAttachments :=
    match galleryApi with
    | some api => match api.extractAttachments with
      | some f => f message
      | none => []
    | none => []
  let normalizedCopyHistory :=
    match galleryApi with
    | some api => match api.extractCopyHistory with
      | some f => f message
      | none => []
    | none => []
  let registration : RegEvent :=
    match galleryApi with
    | some api =>
      if api.registerMessageGallery then
        some ({ message with
                  attachments := some normalizedAttachments,
                  copy_history := some normalizedCopyHistory }, galleryKey)
      else none
    | none => none
  let contentCell :=
    match galleryApi with
    | some api => match api.buildContentCell with
      | some f => f normalizedAttachments normalizedCopyHistory galleryKey
      | none => ""
    | none => ""
  (⟨contentCell, normalizedAttachments, normalizedCopyHistory⟩, registration)

/-- `buildDashboardRow` of the card-layout source file. -/
def buildDashboardRow (message : Message) (galleryApi : Option GalleryApi)
    (galleryKey : String) (options : RowOptions) : RenderedRow × RegEvent :=
  let classes :=
    ["chat-item"] ++ (if options.isNew then ["message-row-new"] else []) ++
      (if message.is_deleted then ["message-deleted"] else [])
  let formatDate := resolveFormatDate options
  let createdAt := formatDate message.created_at
  let peerCell := buildPeerCell message { allowLink := some true }
  let authorCell := buildSenderCell message { allowLink := some true, showBotBadge := some true }
  let replyCell := buildReplyPreview message.reply { mode := some "compact" }
  let hasReply := hasContentfulReply message.reply
  let prep := prepareGalleryContent message galleryApi galleryKey
  let contentCell := prep.1.contentCell
  let hasAttachments :=
    prep.1.normalizedAttachments.length != 0 || prep.1.normalizedCopyHistory.length != 0
  let textCell := message.text.getD ""
  let innerHTML :=
    "\n      <div class=\"chat-avatar-col\">" ++
      buildAvatarLabel (jsOrOpt message.from_name message.peer_title)
        (jsOrOpt message.from_avatar message.peer_avatar) ++
      "</div>\n      <div class=\"chat-bubble\">\n        <div class=\"chat-bubble-header\">\n          <div class=\"chat-bubble-meta\">" ++
      peerCell ++
      "</div>\n          <div class=\"chat-bubble-time text-secondary\">" ++
      createdAt ++
      "</div>\n        </div>\n        <div class=\"chat-bubble-author\">" ++
      authorCell ++ "</div>\n        " ++
      (if hasReply then "<div class=\"chat-bubble-reply\">" ++ replyCell ++ "</div>" else "") ++
      "\n        " ++
      (if hasAttachments then "<div class=\"chat-bubble-attachments\">" ++ contentCell ++ "</div>"
       else "") ++
      "\n        <div class=\"chat-bubble-text\">" ++ jsStrOr textCell placeholder ++
      "</div>\n      </div>\n    "
  (⟨"div", classes, innerHTML⟩, prep.2)

/-- `buildLogsRow` of the card-layout source file. -/
def buildLogsRow (log : Message) (galleryApi : Option GalleryApi)
    (galleryKey : String) (options : RowOptions) : RenderedRow × RegEvent :=
  let classes :=
    ["chat-item"] ++ (if log.is_deleted then ["message-deleted"] else [])
  let formatDate := resolveFormatDate options
  let createdAt := formatDate log.created_at
  let peerCell := buildPeerCell log { allowLink := some true }
  let authorCell := buildSenderCell log { allowLink := some true, showBotBadge := some true }
  let botBadge := if log.is_bot then "Да" else "Нет"
  let replyCell := buildReplyPreview log.reply { mode := some "detailed", peerId := log.peer_id }
  let hasReply := hasContentfulReply log.reply
  let prep := prepareGalleryContent log galleryApi galleryKey
  let contentCell := prep.1.contentCell
  let hasAttachments :=
    prep.1.normalizedAttachments.length != 0 || prep.1.normalizedCopyHistory.length != 0
  let textCell := log.text.getD ""
  let messageIdCell := match log.message_id with | some n => toString n | none => "—"
  let logIdCell := match log.id with | some n => toString n | none => "—"
  let deleteButton :=
    "<button type=\"button\" class=\"btn btn-sm btn-outline-danger delete-log-btn\" data-log-id=\"" ++
      jsNumToStr log.id ++ "\">Удалить</button>"
  let innerHTML :=
    "\n      <div class=\"chat-avatar-col\">" ++
      buildAvatarLabel (jsOrOpt log.from_name log.peer_title)
        (jsOrOpt log.from_avatar log.peer_avatar) ++
      "</div>\n      <div class=\"chat-bubble\"> \n        <div class=\"chat-bubble-header\">\n          <div class=\"chat-bubble-meta\">" ++
      peerCell ++
      "</div>\n          <div class=\"chat-bubble-time text-secondary\">" ++
      createdAt ++
      "</div>\n        </div>\n        <div class=\"chat-bubble-author\">" ++
      authorCell ++ "</div>\n        <div class=\"chat-bubble-flags\">Бот: " ++
      botBadge ++ "</div>\n        " ++
      (if hasReply then "<div class=\"chat-bubble-reply\">" ++ replyCell ++ "</div>" else "") ++
      "\n        " ++
      (if hasAttachments then "<div class=\"chat-bubble-attachments\">" ++ contentCell ++ "</div>"
       else "") ++
      "\n        <div class=\"chat-bubble-text\">" ++ jsStrOr textCell placeholder ++
      "</div>\n        <div class=\"chat-bubble-footer\">\n          <span class=\"badge bg-dark\">VK ID: " ++
      messageIdCell ++
      "</span>\n          <span class=\"badge bg-secondary\">Запись: " ++
      logIdCell ++ "</span> \n          " ++ deleteButton ++
      " \n        </div> \n      </div>\n    "
  (⟨"div", classes, innerHTML⟩, prep.2)

/-- `buildEntityRow` of the card-layout source file. -/
def buildEntityRow (message : Message) (galleryApi : Option GalleryApi)
    (galleryKey : String) (options : RowOptions) : RenderedRow × RegEvent :=
  let classes :=
    ["chat-item"] ++ (if message.is_deleted then ["message-deleted"] else [])
  let formatDate := resolveFormatDate options
  let showChatColumn := options.showChatColumn
  let showSenderColumn := options.showSenderColumn
  let createdAtCell := formatDate message.created_at
  let peerCell := buildPeerCell message { allowLink := some true }
  let authorCell := buildSenderCell message { allowLink := some true, showBotBadge := some true }
  let prep := prepareGalleryContent message galleryApi galleryKey
  let contentCell := prep.1.contentCell
  let hasAttachments :=
    prep.1.normalizedAttachments.length != 0 || prep.1.normalizedCopyHistory.length != 0
  let textCell := match message.text with | some t => t | none => "—"
  let metaChunks :=
    ["<span class=\"chat-bubble-time text-secondary\">" ++ createdAtCell ++ "</span>"] ++
      (if showChatColumn then ["<span class=\"chat-bubble-meta\">" ++ peerCell ++ "</span>"]
       else []) ++
      (if showSenderColumn then ["<span class=\"chat-bubble-author\">" ++ authorCell ++ "</span>"]
       else [])
  let innerHTML :=
    "\n      <div class=\"chat-avatar-col\">" ++
      buildAvatarLabel (jsOrOpt message.from_name message.peer_title)
        (jsOrOpt message.from_avatar message.peer_avatar) ++
      "</div>\n      <div class=\"chat-bubble\">\n        <div class=\"chat-bubble-header\">" ++
      String.intercalate " · " metaChunks ++ "</div>\n        " ++
      (if hasAttachments then "<div class=\"chat-bubble-attachments\">" ++ contentCell ++ "</div>"
       else "") ++
      "\n        <div class=\"chat-bubble-text\">" ++ textCell ++
      "</div>\n      </div>\n    "
  (⟨"div", classes, innerHTML⟩, prep.2)

/-- `registerEntityGalleries` of the card-layout source file: the list of
registration calls made, one per message, keyed positionally. -/
def registerEntityGalleries (messages : Option (List Message))
    (galleryApi : Option GalleryApi) : List RegEvent :=
  match messages with
  | none => []
  | some msgs =>
    msgs.mapIdx fun idx msg =>
      (prepareGalleryContent msg galleryApi ("entity-msg-" ++ toString idx)).2

end Card

namespace Table

/-- `prepareGalleryContent` of the table-layout source file (missing
`buildContentCell` falls back to the placeholder fragment). -/
def prepareGalleryContent (message : Message) (galleryApi : Option GalleryApi)
    (galleryKey : String) : PrepResult × RegEvent :=
  let normalizedAttachments :=
    match galleryApi with
    | some api => match api.extractAttachments with
      | some f => f message
      | none => []
    | none => []
  let normalizedCopyHistory :=
    match galleryApi with
    | some api => match api.extractCopyHistory with
      | some f => f message
      | none => []
    | none => []
  let registration : RegEvent :=
    match galleryApi with
    | some api =>
      if api.registerMessageGallery then
        some ({ message with
                  attachments := some normalizedAttachments,
                  copy_history := some normalizedCopyHistory }, galleryKey)
      else none
    | none => none
  let contentCell :=
    match galleryApi with
    | some api => match api.buildContentCell with
      | some f => f normalizedAttachments normalizedCopyHistory galleryKey
      | none => placeholder
    | none => placeholder
  (⟨contentCell, normalizedAttachments, normalizedCopyHistory⟩, registration)

/-- `buildDashboardRow` of the table-layout source file. -/
def buildDashboardRow (message : Message) (galleryApi : Option GalleryApi)
    (galleryKey : String) (options : RowOptions) : RenderedRow × RegEvent :=
  let classes :=
    (if options.isNew then ["message-row-new"] else []) ++
      (if message.is_deleted then ["message-deleted"] else [])
  let formatDate := resolveFormatDate options
  let createdAt := formatDate message.created_at
  let peerCell := buildPeerCell message { allowLink := some true }
  let authorCell := buildSenderCell message { allowLink := some true, showBotBadge := some true }
  let replyCell := buildReplyPreview message.reply { mode := some "compact" }
  let prep := prepareGalleryContent message galleryApi galleryKey
  let contentCell := prep.1.contentCell
  let textCell := message.text.getD ""
  let innerHTML :=
    "<td class=\"text-secondary small text-nowrap\">" ++ createdAt ++
      "</td><td class=\"text-nowrap\">" ++ peerCell ++
      "</td><td class=\"text-nowrap\">" ++ authorCell ++ "</td><td>" ++ replyCell ++
      "</td><td>" ++ contentCell ++ "</td><td>" ++ textCell ++ "</td>"
  (⟨"tr", classes, innerHTML⟩, prep.2)

/-- `buildLogsRow` of the table-layout source file. -/
def buildLogsRow (log : Message) (galleryApi : Option GalleryApi)
    (galleryKey : String) (options : RowOptions) : RenderedRow × RegEvent :=
  let classes := if log.is_deleted then ["message-deleted"] else []
  let formatDate := resolveFormatDate options
  let createdAt := formatDate log.created_at
  let peerCell := buildPeerCell log { allowLink := some true }
  let authorCell := buildSenderCell log { allowLink := some true, showBotBadge := some true }
  let botBadge := if log.is_bot then "Да" else "Нет"
  let replyCell := buildReplyPreview log.reply { mode := some "detailed", peerId := log.peer_id }
  let prep := prepareGalleryContent log galleryApi galleryKey
  let contentCell := prep.1.contentCell
  let textCell := log.text.getD ""
  let messageIdCell := match log.message_id with | some n => toString n | none => "—"
  let logIdCell := match log.id with | some n => toString n | none => "—"
  let deleteButton :=
    "<button type=\"button\" class=\"btn btn-sm btn-outline-danger delete-log-btn\" data-log-id=\"" ++
      jsNumToStr log.id ++ "\">Удалить</button>"
  let innerHTML :=
    "<td class=\"text-nowrap\">" ++ createdAt ++ "</td><td class=\"text-nowrap\">" ++
      peerCell ++ "</td><td class=\"text-nowrap\">" ++ authorCell ++
      "</td><td class=\"text-nowrap\">" ++ botBadge ++ "</td><td>" ++ replyCell ++
      "</td><td>" ++ contentCell ++ "</td><td>" ++ textCell ++
      "</td><td class=\"text-nowrap\">" ++ messageIdCell ++
      "</td><td class=\"text-nowrap\">" ++ logIdCell ++ "</td><td>" ++ deleteButton ++ "</td>"
  (⟨"tr", classes, innerHTML⟩, prep.2)

/-- `buildEntityRow` of the table-layout source file. -/
def buildEntityRow (message : Message) (galleryApi : Option GalleryApi)
    (galleryKey : String) (options : RowOptions) : RenderedRow × RegEvent :=
  let classes := if message.is_deleted then ["message-deleted"] else []
  let formatDate := resolveFormatDate options
  let showChatColumn := options.showChatColumn
  let showSenderColumn := options.showSenderColumn
  let createdAtCell := formatDate message.created_at
  let peerCell := buildPeerCell message { allowLink := some true }
  let authorCell := buildSenderCell message { allowLink := some true, showBotBadge := some true }
  let prep := prepareGalleryContent message galleryApi galleryKey
  let contentCell := prep.1.contentCell
  let textCell := match message.text with | some t => t | none => "—"
  let cells :=
    ["<td class=\"text-nowrap\">" ++ createdAtCell ++ "</td>"] ++
      (if showChatColumn then ["<td class=\"text-nowrap\">" ++ peerCell ++ "</td>"] else []) ++
      (if showSenderColumn then ["<td class=\"text-nowrap\">" ++ authorCell ++ "</td>"] else []) ++
      ["<td>" ++ contentCell ++ "</td>"] ++ ["<td>" ++ textCell ++ "</td>"]
  let innerHTML := String.join cells
  (⟨"tr", classes, innerHTML⟩, prep.2)

/-- `registerEntityGalleries` of the table-layout source file. -/
def registerEntityGalleries (messages : Option (List Message))
    (galleryApi : Option GalleryApi) : List RegEvent :=
  match messages with
  | none => []
  | some msgs =>
    msgs.mapIdx fun idx msg =>
      (prepareGalleryContent msg galleryApi ("entity-msg-" ++ toString idx)).2

end Table

/-- Modelled from the spec: the gallery collaborator itself (its registry) is
not part of this repository; §4.5 specifies that `registerMessageGallery` is
keyed by the gallery key and that re-registering under the same key replaces
the prior entry with no accumulation.  The registry is an association list,
and applying a registration event inserts the entry and drops any prior entry
under the same key. -/
def registryApply (reg : List (String × Message)) (ev : RegEvent) :
    List (String × Message) :=
  match ev with
  | none => reg
  | some (msg, key) => (key, msg) :: reg.filter (fun p => p.1 ≠ key)

/-- A message record with every field absent (and both flags false). -/
def emptyMessage : Message :=
  { id := none, peer_id := none, peer_title := none, peer_avatar := none,
    from_id := none, from_name := none, from_avatar := none, is_bot := false,
    text := none, created_at := none, is_deleted := false, attachments := none,
    copy_history := none, reply := none, message_id := none }

/-! ## String infrastructure

Substring occurrence is the list-level infix relation on the character data
of the strings; the lemmas below let occurrence checks be peeled through the
concatenations the builders produce. -/

/-- `pat` occurs as a contiguous segment of `s`. -/
def SegIn (pat s : String) : Prop := pat.data <:+: s.data

instance (pat s : String) : Decidable (SegIn pat s) :=
  List.decidableInfix pat.data s.data

/-- `s` ends with `pat`. -/
def EndsIn (pat s : String) : Prop := pat.data <:+ s.data

instance (pat s : String) : Decidable (EndsIn pat s) :=
  List.instDecidableIsSuffixOfDecidableEq pat.data s.data

theorem str_data_append (a b : String) : (a ++ b).data = a.data ++ b.data := rfl

theorem seg_in_of_parts {pat pre post s : String} (h : pre ++ pat ++ post = s) :
    SegIn pat s :=
  ⟨pre.data, post.data, by rw [← h]; simp [str_data_append]⟩

theorem prefix_append_split {α : Type} {p s t : List α} (h : p <+: s ++ t) :
    p <+: s ∨ ∃ b, p = s ++ b ∧ b <+: t := by
  by_cases hl : p.length ≤ s.length
  · exact Or.inl (List.prefix_of_prefix_length_le h (List.prefix_append s t) hl)
  · right
    have hsp : s <+: p :=
      List.prefix_of_prefix_length_le (List.prefix_append s t) h (by omega)
    obtain ⟨b, hb⟩ := hsp
    refine ⟨b, hb.symm, ?_⟩
    obtain ⟨r, hr⟩ := h
    rw [← hb, List.append_assoc] at hr
    exact ⟨r, List.append_cancel_left hr⟩

theorem infix_append_split {α : Type} {s t p : List α} (h : p <:+: s ++ t) :
    p <:+: s ∨ p <:+: t ∨
      ∃ a b, a ++ b = p ∧ a ≠ [] ∧ b ≠ [] ∧ a <:+ s ∧ b <+: t := by
  induction s generalizing p with
  | nil => exact Or.inr (Or.inl (by simpa using h))
  | cons c s ih =>
    rw [List.cons_append, List.infix_cons_iff] at h
    rcases h with hp | hi
    · rcases p with _ | ⟨d, p'⟩
      · exact Or.inl ⟨[], c :: s, by simp⟩
      · obtain ⟨r, hr⟩ := hp
        rw [List.cons_append] at hr
        have hdc : d = c := by injection hr
        have hp' : p' <+: s ++ t := ⟨r, by injection hr⟩
        subst hdc
        rcases prefix_append_split hp' with hps | ⟨b, hpb, hbt⟩
        · obtain ⟨r2, hr2⟩ := hps
          exact Or.inl ⟨[], r2, by simp [hr2]⟩
        · rcases b with _ | ⟨e, b'⟩
          · refine Or.inl ⟨[], [], ?_⟩
            rw [List.append_nil] at hpb
            simp [hpb]
          · refine Or.inr (Or.inr ⟨d :: s, e :: b', ?_, by simp, by simp, ⟨[], rfl⟩, hbt⟩)
            simp [hpb]
    · rcases ih hi with h | h | ⟨a, b, h1, h2, h3, h4, h5⟩
      · obtain ⟨u, v, huv⟩ := h
        exact Or.inl ⟨c :: u, v, by simp [huv]⟩
      · exact Or.inr (Or.inl h)
      · obtain ⟨u, hu⟩ := h4
        exact Or.inr (Or.inr ⟨a, b, h1, h2, h3, ⟨c :: u, by simp [hu]⟩, h5⟩)

/-- A pattern whose head does not occur in `s` cannot occur in `s`. -/
theorem not_infix_of_head_notMem {α : Type} {c : α} {p' s : List α} (hs : c ∉ s) :
    ¬ (c :: p') <:+: s := by
  intro h
  obtain ⟨u, v, huv⟩ := h
  exact hs (huv ▸ (by simp : c ∈ u ++ (c :: p') ++ v))

/-- Peeling a variable part that does not contain the pattern's head
character. -/
theorem peel_var {α : Type} {c : α} {p' s t : List α} (hs : c ∉ s) :
    (c :: p') <:+: s ++ t ↔ (c :: p') <:+: t := by
  constructor
  · intro h
    rcases infix_append_split h with h | h | ⟨a, b, h1, h2, h3, h4, h5⟩
    · exact absurd h (not_infix_of_head_notMem hs)
    · exact h
    · rcases a with _ | ⟨d, a'⟩
      · exact absurd rfl h2
      · have hdc : d = c := by
          have := congrArg (fun l => l.head?) h1
          simpa using this
        subst hdc
        obtain ⟨u, hu⟩ := h4
        exact absurd (hu ▸ (by simp : d ∈ u ++ (d :: a'))) hs
  · intro h
    obtain ⟨u, v, huv⟩ := h
    refine ⟨s ++ u, v, ?_⟩
    rw [← huv]
    simp [List.append_assoc]

/-- Peeling a fixed part: the pattern neither occurs in `F` nor does any of
its nonempty proper prefixes end `F` (both decidable for concrete data). -/
theorem peel_fixed {α : Type} {p F t : List α} (hF : ¬ p <:+: F)
    (hsplit : ∀ i, i < p.length → 0 < i → ¬ p.take i <:+ F) :
    p <:+: F ++ t ↔ p <:+: t := by
  constructor
  · intro h
    rcases infix_append_split h with h | h | ⟨a, b, h1, h2, h3, h4, h5⟩
    · exact absurd h hF
    · exact h
    · have ha : a = p.take a.length := by rw [← h1, List.take_left]
      have h0 : 0 < a.length := List.length_pos.mpr h2
      have hlt : a.length < p.length := by
        rw [← h1, List.length_append]
        have : 0 < b.length := List.length_pos.mpr h3
        omega
      exact absurd (ha ▸ h4) (hsplit a.length hlt h0)
  · intro h
    obtain ⟨u, v, huv⟩ := h
    refine ⟨F ++ u, v, ?_⟩
    rw [← huv]
    simp [List.append_assoc]

theorem str_ne_of_second_char {s t : String} (h : s.data[1]? ≠ t.data[1]?) : s ≠ t :=
  fun he => h (by rw [he])

/-! ## Characters of rendered numbers -/

theorem digitChar_mem_digits {n : Nat} (h : n < 10) :
    Nat.digitChar n ∈ ['0', '1', '2', '3', '4', '5', '6', '7', '8', '9'] := by
  interval_cases n <;> decide

theorem toDigitsCore_chars (f : Nat) :
    ∀ (n : Nat) (acc : List Char), ∀ c ∈ Nat.toDigitsCore 10 f n acc,
      c ∈ acc ∨ c ∈ ['0', '1', '2', '3', '4', '5', '6', '7', '8', '9'] := by
  induction f with
  | zero => intro n acc c hc; exact Or.inl hc
  | succ f ih =>
    intro n acc c hc
    rw [Nat.toDigitsCore] at hc
    by_cases hz : n / 10 = 0
    · rw [if_pos hz] at hc
      rcases List.mem_cons.mp hc with h | h
      · exact Or.inr (h ▸ digitChar_mem_digits (Nat.mod_lt n (by omega)))
      · exact Or.inl h
    · rw [if_neg hz] at hc
      rcases ih (n / 10) (Nat.digitChar (n % 10) :: acc) c hc with h | h
      · rcases List.mem_cons.mp h with h | h
        · exact Or.inr (h ▸ digitChar_mem_digits (Nat.mod_lt n (by omega)))
        · exact Or.inl h
      · exact Or.inr h

theorem natRepr_chars (n : Nat) :
    ∀ c ∈ (Nat.repr n).data, c ∈ ['0', '1', '2', '3', '4', '5', '6', '7', '8', '9'] := by
  intro c hc
  have hc' : c ∈ Nat.toDigitsCore 10 (n + 1) n [] := hc
  rcases toDigitsCore_chars (n + 1) n [] c hc' with h | h
  · cases h
  · exact h

theorem lt_char_notMem_natStr (n : Nat) : '<' ∉ (toString n).data := by
  intro h
  have := natRepr_chars n '<' h
  simp at this

theorem lt_char_notMem_intStr (n : Int) : '<' ∉ (toString n).data := by
  intro h
  match n with
  | Int.ofNat m =>
    have hm : '<' ∈ (Nat.repr m).data := h
    have := natRepr_chars m '<' hm
    simp at this
  | Int.negSucc m =>
    have hm : '<' ∈ ("-" ++ Nat.repr (m + 1)).data := h
    rw [str_data_append] at hm
    rcases List.mem_append.mp hm with h' | h'
    · simp at h'
    · have := natRepr_chars (m + 1) '<' h'
      simp at this

/-! ## Branch views of the builders (definitionally equal restatements used
to reason about the individual branches) -/

/-- The bot badge fragment used by `buildSenderCell` and the compact reply
preview. -/
def botBadgeHTML : String := "<span class=\"sender-badge\">Бот</span>"

/-- The `replyText` local of `buildReplyPreview`. -/
def replyTextOf (r : Reply) : String :=
  if strTruthy r.text then jsSlice (r.text.getD "") 120 else "Без текста"

/-- The `replyAuthorLabel` local of the detailed branch. -/
def replyAuthorLabelOf (r : Reply) : String :=
  if strTruthy r.from_name then
    r.from_name.getD "" ++ " (ID: " ++
      (match r.from_id with | some n => toString n | none => "—") ++ ")"
  else if intTruthy r.from_id then "ID: " ++ jsNumToStr r.from_id
  else "Автор неизвестен"

/-- The `replyLink` local of the detailed branch. -/
def replyLinkOf (r : Reply) (o : ReplyOptions) : String :=
  if intTruthy r.id && intTruthy o.peerId then
    "<a href=\"https://vk.com/im?sel=" ++ jsNumToStr o.peerId ++ "&msgid=" ++
      jsNumToStr r.id ++ "\" target=\"_blank\" rel=\"noopener noreferrer\">#" ++
      jsNumToStr r.id ++ "</a>"
  else "#" ++ (match r.id with | some n => toString n | none => "—")

/-- The `replyAttachmentsLabel` local of the detailed branch. -/
def replyAttachmentsLabelOf (r : Reply) : String :=
  if (match r.attachments with | some l => l.length | none => 0) ≠ 0 then
    toString (match r.attachments with | some l => l.length | none => 0) ++ " влож."
  else "Без вложений"

/-- The detailed reply block. -/
def detailedBlock (r : Reply) (o : ReplyOptions) : String :=
  "<div class=\"d-flex flex-column gap-1\"><div class=\"d-flex align-items-center gap-2\">" ++
    replyLinkOf r o ++ "<span class=\"text-secondary small\">" ++ replyAttachmentsLabelOf r ++
    "</span></div><div class=\"text-secondary small\">" ++ replyTextOf r ++
    "</div><div class=\"text-secondary small\">" ++
    buildAvatarLabel (some (replyAuthorLabelOf r)) r.from_avatar ++ "</div></div>"

/-- The compact reply block. -/
def compactBlock (r : Reply) : String :=
  "<div class=\"d-flex flex-column gap-1\"><div class=\"text-secondary small\">Ответ на предыдущее сообщение</div><div class=\"text-light small\">" ++
    replyTextOf r ++ "</div><div class=\"d-flex align-items-center gap-2 text-secondary small\">" ++
    jsOrStr r.from_name "Автор не указан" ++ (if r.is_bot then botBadgeHTML else "") ++
    "</div></div>"

theorem buildReplyPreview_eq (r : Reply) (o : ReplyOptions) :
    buildReplyPreview (some r) o =
      if jsOrStr o.mode "compact" = "detailed" then
        if !intTruthy r.id && !strTruthy r.text && !intTruthy r.from_id then placeholder
        else detailedBlock r o
      else
        if !(strTruthy r.text || strTruthy r.from_name) then placeholder
        else compactBlock r := rfl

theorem detailedBlock_ne_placeholder (r : Reply) (o : ReplyOptions) :
    detailedBlock r o ≠ placeholder :=
  str_ne_of_second_char (by
    rw [show (detailedBlock r o).data[1]? = some 'd' from rfl]
    decide)

theorem compactBlock_ne_placeholder (r : Reply) :
    compactBlock r ≠ placeholder :=
  str_ne_of_second_char (by
    rw [show (compactBlock r).data[1]? = some 'd' from rfl]
    decide)

/-! ## C2 -/

/-- C2: `buildReplyPreview` returns the placeholder fragment exactly when the
reply is absent (both modes), or in detailed mode when none of id, text,
from_id is present (truthy), or in compact mode when neither text nor
from_name is present (truthy); in every other case the result is a
non-placeholder block. -/
theorem C2_replyPreview_placeholder_iff (reply : Option Reply) (options : ReplyOptions) :
    buildReplyPreview reply options = placeholder ↔
      (reply = none ∨
        ∃ r, reply = some r ∧
          ((jsOrStr options.mode "compact" = "detailed" ∧ intTruthy r.id = false ∧
              strTruthy r.text = false ∧ intTruthy r.from_id = false) ∨
            (jsOrStr options.mode "compact" ≠ "detailed" ∧ strTruthy r.text = false ∧
              strTruthy r.from_name = false))) := by
  cases reply with
  | none => simp [buildReplyPreview]
  | some r =>
    rw [buildReplyPreview_eq]
    by_cases hmode : jsOrStr options.mode "compact" = "detailed"
    · rw [if_pos hmode]
      by_cases hc : (!intTruthy r.id && !strTruthy r.text && !intTruthy r.from_id) = true
      · rw [if_pos hc]
        simp only [Bool.and_eq_true, Bool.not_eq_true'] at hc
        constructor
        · intro _
          exact Or.inr ⟨r, rfl, Or.inl ⟨hmode, hc.1.1, hc.1.2, hc.2⟩⟩
        · intro _
          rfl
      · rw [if_neg hc]
        constructor
        · intro h
          exact absurd h (detailedBlock_ne_placeholder r options)
        · rintro (h | ⟨r', hr', h⟩)
          · cases h
          · obtain rfl : r' = r := by injection hr' with h'; exact h'.symm
            rcases h with ⟨_, h1, h2, h3⟩ | ⟨hm, _⟩
            · exact absurd (by simp [h1, h2, h3]) hc
            · exact absurd hmode hm
    · rw [if_neg hmode]
      by_cases hc : (!(strTruthy r.text || strTruthy r.from_name)) = true
      · rw [if_pos hc]
        simp only [Bool.not_eq_true', Bool.or_eq_false_iff] at hc
        constructor
        · intro _
          exact Or.inr ⟨r, rfl, Or.inr ⟨hmode, hc.1, hc.2⟩⟩
        · intro _
          rfl
      · rw [if_neg hc]
        constructor
        · intro h
          exact absurd h (compactBlock_ne_placeholder r)
        · rintro (h | ⟨r', hr', h⟩)
          · cases h
          · obtain rfl : r' = r := by injection hr' with h'; exact h'.symm
            rcases h with ⟨hm, _⟩ | ⟨_, h1, h2⟩
            · exact absurd hm hmode
            · exact absurd (by simp [h1, h2]) hc

theorem str_ext {s t : String} (h : s.data = t.data) : s = t := by
  cases s
  cases t
  simp only at h
  rw [h]

theorem str_append_assoc (a b c : String) : a ++ b ++ c = a ++ (b ++ c) :=
  str_ext (by simp [str_data_append])

theorem seg_in_intro (pat s pre post : String) (h : pre ++ pat ++ post = s) :
    SegIn pat s :=
  seg_in_of_parts h

/-! ## C3 -/

/-- C3: for every reply whose text is present, both preview modes render as
the text segment exactly the first 120 characters of the text (a hard cut:
the rendered slice is a prefix of the original, no ellipsis is appended, and
texts of at most 120 characters appear unchanged); when the text is absent
the segment is the literal no-text label. -/
theorem C3_replyText_hard_truncation (r : Reply) (options : ReplyOptions) (t : String)
    (ht : r.text = some t) (hne : t ≠ "") :
    (replyTextOf r = jsSlice t 120 ∧
      (jsSlice t 120).data = t.data.take 120 ∧
      (jsSlice t 120).data <+: t.data ∧
      (t.data.length ≤ 120 → jsSlice t 120 = t)) ∧
    (jsOrStr options.mode "compact" = "detailed" →
      SegIn ("<div class=\"text-secondary small\">" ++ jsSlice t 120 ++ "</div>")
        (buildReplyPreview (some r) options)) ∧
    (jsOrStr options.mode "compact" ≠ "detailed" →
      SegIn ("<div class=\"text-light small\">" ++ jsSlice t 120 ++ "</div>")
        (buildReplyPreview (some r) options)) ∧
    (∀ (r' : Reply) (o' : ReplyOptions), strTruthy r'.text = false →
      replyTextOf r' = "Без текста" ∧
      (jsOrStr o'.mode "compact" = "detailed" →
        (intTruthy r'.id || intTruthy r'.from_id) = true →
        SegIn ("<div class=\"text-secondary small\">Без текста</div>")
          (buildReplyPreview (some r') o')) ∧
      (jsOrStr o'.mode "compact" ≠ "detailed" → strTruthy r'.from_name = true →
        SegIn ("<div class=\"text-light small\">Без текста</div>")
          (buildReplyPreview (some r') o'))) := by
  have hrt : replyTextOf r = jsSlice t 120 := by simp [replyTextOf, strTruthy, ht, hne]
  refine ⟨⟨hrt, rfl, List.take_prefix 120 t.data, ?_⟩, ?_, ?_, ?_⟩
  · intro hlen
    exact str_ext (List.take_of_length_le hlen)
  · intro hmode
    have hcond : (!intTruthy r.id && !strTruthy r.text && !intTruthy r.from_id) ≠ true := by
      simp [strTruthy, ht, hne]
    rw [buildReplyPreview_eq, if_pos hmode, if_neg hcond]
    refine seg_in_intro _ _
      ("<div class=\"d-flex flex-column gap-1\"><div class=\"d-flex align-items-center gap-2\">" ++
        replyLinkOf r options ++ "<span class=\"text-secondary small\">" ++
        replyAttachmentsLabelOf r ++ "</span></div>")
      ("<div class=\"text-secondary small\">" ++
        buildAvatarLabel (some (replyAuthorLabelOf r)) r.from_avatar ++ "</div></div>") ?_
    simp only [detailedBlock, hrt]
    rw [show ("</span></div><div class=\"text-secondary small\">" : String) =
          "</span></div>" ++ "<div class=\"text-secondary small\">" from rfl,
        show ("</div><div class=\"text-secondary small\">" : String) =
          "</div>" ++ "<div class=\"text-secondary small\">" from rfl]
    simp only [str_append_assoc]
  · intro hmode
    have hread : (!(strTruthy r.text || strTruthy r.from_name)) ≠ true := by
      simp [strTruthy, ht, hne]
    rw [buildReplyPreview_eq, if_neg hmode, if_neg hread]
    refine seg_in_intro _ _
      ("<div class=\"d-flex flex-column gap-1\"><div class=\"text-secondary small\">Ответ на предыдущее сообщение</div>")
      ("<div class=\"d-flex align-items-center gap-2 text-secondary small\">" ++
        jsOrStr r.from_name "Автор не указан" ++ (if r.is_bot then botBadgeHTML else "") ++
        "</div></div>") ?_
    simp only [compactBlock, hrt]
    rw [show ("<div class=\"d-flex flex-column gap-1\"><div class=\"text-secondary small\">Ответ на предыдущее сообщение</div><div class=\"text-light small\">" : String) =
          "<div class=\"d-flex flex-column gap-1\"><div class=\"text-secondary small\">Ответ на предыдущее сообщение</div>" ++
            "<div class=\"text-light small\">" from rfl,
        show ("</div><div class=\"d-flex align-items-center gap-2 text-secondary small\">" : String) =
          "</div>" ++ "<div class=\"d-flex align-items-center gap-2 text-secondary small\">" from rfl]
    simp only [str_append_assoc]
  · intro r' o' htext
    have hrt' : replyTextOf r' = "Без текста" := by simp [replyTextOf, htext]
    refine ⟨hrt', ?_, ?_⟩
    · intro hmode hcond'
      have hc2 : (!intTruthy r'.id && !strTruthy r'.text && !intTruthy r'.from_id) ≠ true := by
        simp only [Bool.or_eq_true] at hcond'
        rcases hcond' with h | h <;> simp [h]
      rw [buildReplyPreview_eq, if_pos hmode, if_neg hc2]
      refine seg_in_intro _ _
        ("<div class=\"d-flex flex-column gap-1\"><div class=\"d-flex align-items-center gap-2\">" ++
          replyLinkOf r' o' ++ "<span class=\"text-secondary small\">" ++
          replyAttachmentsLabelOf r' ++ "</span></div>")
        ("<div class=\"text-secondary small\">" ++
          buildAvatarLabel (some (replyAuthorLabelOf r')) r'.from_avatar ++ "</div></div>") ?_
      simp only [detailedBlock, hrt']
      rw [show ("<div class=\"text-secondary small\">Без текста</div>" : String) =
            "<div class=\"text-secondary small\">" ++ "Без текста" ++ "</div>" from rfl,
          show ("</span></div><div class=\"text-secondary small\">" : String) =
            "</span></div>" ++ "<div class=\"text-secondary small\">" from rfl,
          show ("</div><div class=\"text-secondary small\">" : String) =
            "</div>" ++ "<div class=\"text-secondary small\">" from rfl]
      simp only [str_append_assoc]
    · intro hmode hname
      have hread : (!(strTruthy r'.text || strTruthy r'.from_name)) ≠ true := by
        simp [htext, hname]
      rw [buildReplyPreview_eq, if_neg hmode, if_neg hread]
      refine seg_in_intro _ _
        ("<div class=\"d-flex flex-column gap-1\"><div class=\"text-secondary small\">Ответ на предыдущее сообщение</div>")
        ("<div class=\"d-flex align-items-center gap-2 text-secondary small\">" ++
          jsOrStr r'.from_name "Автор не указан" ++
          (if r'.is_bot then botBadgeHTML else "") ++ "</div></div>") ?_
      simp only [compactBlock, hrt']
      rw [show ("<div class=\"text-light small\">Без текста</div>" : String) =
            "<div class=\"text-light small\">" ++ "Без текста" ++ "</div>" from rfl,
          show ("<div class=\"d-flex flex-column gap-1\"><div class=\"text-secondary small\">Ответ на предыдущее сообщение</div><div class=\"text-light small\">" : String) =
            "<div class=\"d-flex flex-column gap-1\"><div class=\"text-secondary small\">Ответ на предыдущее сообщение</div>" ++
              "<div class=\"text-light small\">" from rfl,
          show ("</div><div class=\"d-flex align-items-center gap-2 text-secondary small\">" : String) =
            "</div>" ++ "<div class=\"d-flex align-items-center gap-2 text-secondary small\">" from rfl]
      simp only [str_append_assoc]

theorem str_nil_append (s : String) : "" ++ s = s := rfl

theorem str_append_empty (s : String) : s ++ "" = s := str_ext (by simp [str_data_append])

theorem buildAvatarLabel_eq (label av : Option String) :
    buildAvatarLabel label av =
      if strTruthy av then
        "<span class=\"d-inline-flex align-items-center gap-2\"><img src=\"" ++ av.getD "" ++
          "\" alt=\"Аватар\" class=\"avatar-inline\" loading=\"lazy\" /> <span>" ++
          jsOrStr label "—" ++ "</span></span>"
      else jsOrStr label "—" := rfl

theorem buildPeerCell_eq (m : Message) (o : PeerOptions) :
    buildPeerCell m o =
      if neqFalse o.allowLink && intTruthy m.peer_id then
        "<a href=\"/chat/" ++ jsNumToStr m.peer_id ++
          "\" target=\"_blank\" class=\"text-decoration-none text-light d-inline-flex align-items-center gap-2\">" ++
          buildAvatarLabel (some (jsOrStr m.peer_title "Чат без названия")) m.peer_avatar ++
          "</a>"
      else buildAvatarLabel (some (jsOrStr m.peer_title "Чат без названия")) m.peer_avatar := rfl

theorem buildSenderCell_eq (m : Message) (o : SenderOptions) :
    buildSenderCell m o =
      if neqFalse o.allowLink && intTruthy m.from_id then
        "<div class=\"d-flex align-items-center gap-2 flex-wrap\"><a href=\"/user/" ++
          jsNumToStr m.from_id ++
          "\" target=\"_blank\" class=\"text-decoration-none text-light d-inline-flex align-items-center gap-2\">" ++
          buildAvatarLabel (some (jsOrStr m.from_name "Неизвестный отправитель")) m.from_avatar ++
          "</a>" ++
          (if m.is_bot && neqFalse o.showBotBadge then botBadgeHTML else "") ++ "</div>"
      else
        "<div class=\"d-flex align-items-center gap-2 flex-wrap\">" ++
          buildAvatarLabel (some (jsOrStr m.from_name "Неизвестный отправитель")) m.from_avatar ++
          (if m.is_bot && neqFalse o.showBotBadge then botBadgeHTML else "") ++ "</div>" := rfl

theorem seg_in_append_left (a : String) {pat s : String} (h : SegIn pat s) :
    SegIn pat (a ++ s) := by
  obtain ⟨u, v, huv⟩ := h
  exact ⟨a.data ++ u, v, by rw [str_data_append, ← huv]; simp [List.append_assoc]⟩

theorem seg_in_append_right (c : String) {pat s : String} (h : SegIn pat s) :
    SegIn pat (s ++ c) := by
  obtain ⟨u, v, huv⟩ := h
  exact ⟨u, v ++ c.data, by rw [str_data_append, ← huv]; simp [List.append_assoc]⟩

theorem jsOrStr_ne_empty (v : Option String) (d : String) (hd : d ≠ "") :
    jsOrStr v d ≠ "" := by
  cases v with
  | none => simp [jsOrStr, strTruthy, hd]
  | some s =>
    by_cases hs : s = ""
    · simp [jsOrStr, strTruthy, hs, hd]
    · simp [jsOrStr, strTruthy, hs]

theorem jsOrStr_some_of_ne (x d : String) (hx : x ≠ "") : jsOrStr (some x) d = x := by
  simp [jsOrStr, strTruthy, hx]

/-- A label occurs inside the avatar-label fragment built from it. -/
theorem segIn_label_avatarLabel (s : String) (av : Option String) (hs : s ≠ "") :
    SegIn s (buildAvatarLabel (some s) av) := by
  have hsf : jsOrStr (some s) "—" = s := by simp [jsOrStr, strTruthy, hs]
  rw [buildAvatarLabel_eq, hsf]
  by_cases hav : strTruthy av = true
  · rw [if_pos hav]
    exact seg_in_intro _ _
      ("<span class=\"d-inline-flex align-items-center gap-2\"><img src=\"" ++ av.getD "" ++
        "\" alt=\"Аватар\" class=\"avatar-inline\" loading=\"lazy\" /> <span>")
      "</span></span>" (by simp only [str_append_assoc])
  · rw [if_neg hav]
    exact seg_in_intro _ _ "" "" (by rw [str_nil_append, str_append_empty])

/-- A pattern headed by `'<'` that occurs in no fixed chunk of the
avatar-label fragment cannot occur in it when label and avatar are markup
free. -/
theorem not_infix_avatarLabel {p' : List Char} {label av : Option String}
    (hlab : '<' ∉ (jsOrStr label "—").data)
    (hav : '<' ∉ (av.getD "").data)
    (hA : ¬ ('<' :: p') <:+:
      "<span class=\"d-inline-flex align-items-center gap-2\"><img src=\"".data)
    (hA2 : ∀ i, i < ('<' :: p').length → 0 < i → ¬ ('<' :: p').take i <:+
      "<span class=\"d-inline-flex align-items-center gap-2\"><img src=\"".data)
    (hB : ¬ ('<' :: p') <:+:
      "\" alt=\"Аватар\" class=\"avatar-inline\" loading=\"lazy\" /> <span>".data)
    (hB2 : ∀ i, i < ('<' :: p').length → 0 < i → ¬ ('<' :: p').take i <:+
      "\" alt=\"Аватар\" class=\"avatar-inline\" loading=\"lazy\" /> <span>".data)
    (hC : ¬ ('<' :: p') <:+: "</span></span>".data) :
    ¬ ('<' :: p') <:+: (buildAvatarLabel label av).data := by
  rw [buildAvatarLabel_eq]
  by_cases h : strTruthy av = true
  · rw [if_pos h]
    simp only [str_data_append, List.append_assoc]
    intro hseg
    have s1 := (peel_fixed hA hA2).mp hseg
    have s2 := (peel_var hav).mp s1
    have s3 := (peel_fixed hB hB2).mp s2
    have s4 := (peel_var hlab).mp s3
    exact hC s4
  · rw [if_neg h]
    exact not_infix_of_head_notMem hlab

/-! ## C4 -/

/-- C4: `buildPeerCell` produces a hyperlink to the peer detail path
`/chat/...` exactly when `allowLink` is not false and the peer identifier is
truthy (non-zero/non-null); otherwise it returns the (unlinked) label
fragment; and when the peer title is absent the display name is the untitled
chat default, which appears in the output in every case.  The two hygiene
hypotheses say the title and avatar fields contain no markup of their own. -/
theorem C4_peerCell_link (m : Message) (o : PeerOptions)
    (h1 : '<' ∉ (m.peer_title.getD "").data)
    (h2 : '<' ∉ (m.peer_avatar.getD "").data) :
    (SegIn "<a href=\"/chat/" (buildPeerCell m o) ↔
      (neqFalse o.allowLink && intTruthy m.peer_id) = true) ∧
    ((neqFalse o.allowLink && intTruthy m.peer_id) = false →
      buildPeerCell m o =
        buildAvatarLabel (some (jsOrStr m.peer_title "Чат без названия")) m.peer_avatar) ∧
    (strTruthy m.peer_title = false → SegIn "Чат без названия" (buildPeerCell m o)) := by
  have hcn : '<' ∉ (jsOrStr m.peer_title "Чат без названия").data := by
    unfold jsOrStr
    by_cases h : strTruthy m.peer_title = true
    · rw [if_pos h]; exact h1
    · rw [if_neg h]; decide
  have hne : jsOrStr m.peer_title "Чат без названия" ≠ "" :=
    jsOrStr_ne_empty m.peer_title _ (by decide)
  have hlab : '<' ∉ (jsOrStr (some (jsOrStr m.peer_title "Чат без названия")) "—").data := by
    rw [jsOrStr_some_of_ne _ _ hne]; exact hcn
  have hnoseg : (neqFalse o.allowLink && intTruthy m.peer_id) = false →
      ¬ SegIn "<a href=\"/chat/" (buildPeerCell m o) := by
    intro hcond
    rw [buildPeerCell_eq, if_neg (by simp [hcond])]
    simp only [SegIn]
    exact not_infix_avatarLabel hlab h2 (by decide) (by decide) (by decide) (by decide)
      (by decide)
  refine ⟨⟨?_, ?_⟩, ?_, ?_⟩
  · intro hseg
    by_contra hc
    have hcond : (neqFalse o.allowLink && intTruthy m.peer_id) = false := by
      cases hb : (neqFalse o.allowLink && intTruthy m.peer_id) with
      | false => rfl
      | true => exact absurd hb hc
    exact hnoseg hcond hseg
  · intro hcond
    rw [buildPeerCell_eq, if_pos hcond]
    exact seg_in_intro _ _ ""
      (jsNumToStr m.peer_id ++
        "\" target=\"_blank\" class=\"text-decoration-none text-light d-inline-flex align-items-center gap-2\">" ++
        buildAvatarLabel (some (jsOrStr m.peer_title "Чат без названия")) m.peer_avatar ++
        "</a>")
      (by simp only [str_nil_append, str_append_assoc])
  · intro hcond
    rw [buildPeerCell_eq, if_neg (by simp [hcond])]
  · intro htitle
    have hdef : jsOrStr m.peer_title "Чат без названия" = "Чат без названия" := by
      simp [jsOrStr, htitle]
    have hbase : SegIn "Чат без названия"
        (buildAvatarLabel (some (jsOrStr m.peer_title "Чат без названия")) m.peer_avatar) := by
      rw [hdef]
      exact segIn_label_avatarLabel _ _ (by decide)
    rw [buildPeerCell_eq]
    by_cases hcond : (neqFalse o.allowLink && intTruthy m.peer_id) = true
    · rw [if_pos hcond]
      exact seg_in_append_right _ (seg_in_append_left _ hbase)
    · rw [if_neg hcond]
      exact hbase

/-- Witness for C4 at a concrete linked input. -/
theorem C4_peerCell_link_witness :
    SegIn "<a href=\"/chat/" (buildPeerCell { emptyMessage with peer_id := some 5 } {}) :=
  ((C4_peerCell_link { emptyMessage with peer_id := some 5 } {} (by decide) (by decide)).1).mpr
    (by decide)

theorem lt_char_notMem_jsNum (v : Option Int) : '<' ∉ (jsNumToStr v).data := by
  cases v with
  | some n => exact lt_char_notMem_intStr n
  | none => decide

/-- Peeling an entire avatar-label fragment (markup-free label and avatar). -/
theorem peel_avatarLabel {p' : List Char} {label av : Option String} {t : List Char}
    (hlab : '<' ∉ (jsOrStr label "—").data)
    (hav : '<' ∉ (av.getD "").data)
    (hA : ¬ ('<' :: p') <:+:
      "<span class=\"d-inline-flex align-items-center gap-2\"><img src=\"".data)
    (hA2 : ∀ i, i < ('<' :: p').length → 0 < i → ¬ ('<' :: p').take i <:+
      "<span class=\"d-inline-flex align-items-center gap-2\"><img src=\"".data)
    (hB : ¬ ('<' :: p') <:+:
      "\" alt=\"Аватар\" class=\"avatar-inline\" loading=\"lazy\" /> <span>".data)
    (hB2 : ∀ i, i < ('<' :: p').length → 0 < i → ¬ ('<' :: p').take i <:+
      "\" alt=\"Аватар\" class=\"avatar-inline\" loading=\"lazy\" /> <span>".data)
    (hC : ¬ ('<' :: p') <:+: "</span></span>".data)
    (hC2 : ∀ i, i < ('<' :: p').length → 0 < i → ¬ ('<' :: p').take i <:+
      "</span></span>".data) :
    ('<' :: p') <:+: (buildAvatarLabel label av).data ++ t ↔ ('<' :: p') <:+: t := by
  rw [buildAvatarLabel_eq]
  by_cases h : strTruthy av = true
  · rw [if_pos h]
    simp only [str_data_append, List.append_assoc]
    rw [peel_fixed hA hA2, peel_var hav, peel_fixed hB hB2, peel_var hlab,
      peel_fixed hC hC2]
  · rw [if_neg h]
    exact peel_var hlab

/-! ## C5 -/

set_option maxRecDepth 8192 in
/-- C5: `buildSenderCell` appends the bot badge exactly when the message's
bot flag is true and `showBotBadge` is not false; it links to the sender
profile `/user/...` exactly when `allowLink` is not false and the sender
identifier is truthy; and the badge sits after the core content (after the
closing link tag in the linked case), i.e. outside the link element.  The
hygiene hypotheses say name and avatar carry no markup of their own. -/
theorem C5_senderCell_badge_and_link (m : Message) (o : SenderOptions)
    (h1 : '<' ∉ (m.from_name.getD "").data)
    (h2 : '<' ∉ (m.from_avatar.getD "").data) :
    (SegIn botBadgeHTML (buildSenderCell m o) ↔
      (m.is_bot && neqFalse o.showBotBadge) = true) ∧
    (SegIn "<a href=\"/user/" (buildSenderCell m o) ↔
      (neqFalse o.allowLink && intTruthy m.from_id) = true) ∧
    (∃ core : String,
      buildSenderCell m o =
        "<div class=\"d-flex align-items-center gap-2 flex-wrap\">" ++ core ++
          (if m.is_bot && neqFalse o.showBotBadge then botBadgeHTML else "") ++ "</div>" ∧
      ((neqFalse o.allowLink && intTruthy m.from_id) = true →
        core = "<a href=\"/user/" ++ jsNumToStr m.from_id ++
          "\" target=\"_blank\" class=\"text-decoration-none text-light d-inline-flex align-items-center gap-2\">" ++
          buildAvatarLabel (some (jsOrStr m.from_name "Неизвестный отправитель")) m.from_avatar ++
          "</a>") ∧
      ((neqFalse o.allowLink && intTruthy m.from_id) = false →
        core =
          buildAvatarLabel (some (jsOrStr m.from_name "Неизвестный отправитель")) m.from_avatar)) := by
  have hcn : '<' ∉ (jsOrStr m.from_name "Неизвестный отправитель").data := by
    unfold jsOrStr
    by_cases h : strTruthy m.from_name = true
    · rw [if_pos h]; exact h1
    · rw [if_neg h]; decide
  have hne : jsOrStr m.from_name "Неизвестный отправитель" ≠ "" :=
    jsOrStr_ne_empty m.from_name _ (by decide)
  have hlab : '<' ∉ (jsOrStr (some (jsOrStr m.from_name "Неизвестный отправитель")) "—").data := by
    rw [jsOrStr_some_of_ne _ _ hne]; exact hcn
  refine ⟨⟨?_, ?_⟩, ⟨?_, ?_⟩, ?_⟩
  · -- badge occurrence implies badge condition
    intro hseg
    by_contra hc
    have hbadge : (m.is_bot && neqFalse o.showBotBadge) = false := by
      cases hb : (m.is_bot && neqFalse o.showBotBadge) with
      | false => rfl
      | true => exact absurd hb hc
    rw [buildSenderCell_eq] at hseg
    rw [show (if m.is_bot && neqFalse o.showBotBadge then botBadgeHTML else "") = ""
          by simp [hbadge]] at hseg
    by_cases hlink : (neqFalse o.allowLink && intTruthy m.from_id) = true
    · rw [if_pos hlink, str_append_empty] at hseg
      simp only [SegIn, str_data_append, List.append_assoc] at hseg
      have s1 := (peel_fixed (by decide) (by decide)).mp hseg
      have s2 := (peel_var (lt_char_notMem_jsNum m.from_id)).mp s1
      have s3 := (peel_fixed (by decide) (by decide)).mp s2
      have s4 := (peel_avatarLabel hlab h2 (by decide) (by decide) (by decide) (by decide)
        (by decide) (by decide)).mp s3
      have s5 := (peel_fixed (by decide) (by decide)).mp s4
      exact (by decide : ¬ (botBadgeHTML.data <:+: "</div>".data)) s5
    · rw [if_neg hlink, str_append_empty] at hseg
      simp only [SegIn, str_data_append, List.append_assoc] at hseg
      have s1 := (peel_fixed (by decide) (by decide)).mp hseg
      have s2 := (peel_avatarLabel hlab h2 (by decide) (by decide) (by decide) (by decide)
        (by decide) (by decide)).mp s1
      exact (by decide : ¬ (botBadgeHTML.data <:+: "</div>".data)) s2
  · -- badge condition implies occurrence
    intro hbadge
    rw [buildSenderCell_eq]
    rw [show (if m.is_bot && neqFalse o.showBotBadge then botBadgeHTML else "") = botBadgeHTML
          by simp [hbadge]]
    by_cases hlink : (neqFalse o.allowLink && intTruthy m.from_id) = true
    · rw [if_pos hlink]
      exact seg_in_intro _ _
        ("<div class=\"d-flex align-items-center gap-2 flex-wrap\"><a href=\"/user/" ++
          jsNumToStr m.from_id ++
          "\" target=\"_blank\" class=\"text-decoration-none text-light d-inline-flex align-items-center gap-2\">" ++
          buildAvatarLabel (some (jsOrStr m.from_name "Неизвестный отправитель")) m.from_avatar ++
          "</a>")
        "</div>" (by simp only [str_append_assoc])
    · rw [if_neg hlink]
      exact seg_in_intro _ _
        ("<div class=\"d-flex align-items-center gap-2 flex-wrap\">" ++
          buildAvatarLabel (some (jsOrStr m.from_name "Неизвестный отправитель")) m.from_avatar)
        "</div>" (by simp only [str_append_assoc])
  · -- link occurrence implies link condition
    intro hseg
    by_contra hc
    have hlink : (neqFalse o.allowLink && intTruthy m.from_id) = false := by
      cases hb : (neqFalse o.allowLink && intTruthy m.from_id) with
      | false => rfl
      | true => exact absurd hb hc
    rw [buildSenderCell_eq, if_neg (by simp [hlink])] at hseg
    cases hbadge : (m.is_bot && neqFalse o.showBotBadge) with
    | true =>
      rw [show (if m.is_bot && neqFalse o.showBotBadge then botBadgeHTML else "") = botBadgeHTML
            by simp [hbadge]] at hseg
      simp only [SegIn, str_data_append, List.append_assoc] at hseg
      have s1 := (peel_fixed (by decide) (by decide)).mp hseg
      have s2 := (peel_avatarLabel hlab h2 (by decide) (by decide) (by decide) (by decide)
        (by decide) (by decide)).mp s1
      have s3 := (peel_fixed (by decide) (by decide)).mp s2
      exact (by decide : ¬ ("<a href=\"/user/".data <:+: "</div>".data)) s3
    | false =>
      rw [show (if m.is_bot && neqFalse o.showBotBadge then botBadgeHTML else "") = ""
            by simp [hbadge], str_append_empty] at hseg
      simp only [SegIn, str_data_append, List.append_assoc] at hseg
      have s1 := (peel_fixed (by decide) (by decide)).mp hseg
      have s2 := (peel_avatarLabel hlab h2 (by decide) (by decide) (by decide) (by decide)
        (by decide) (by decide)).mp s1
      exact (by decide : ¬ ("<a href=\"/user/".data <:+: "</div>".data)) s2
  · -- link condition implies occurrence
    intro hlink
    rw [buildSenderCell_eq, if_pos hlink]
    rw [show ("<div class=\"d-flex align-items-center gap-2 flex-wrap\"><a href=\"/user/" : String) =
          "<div class=\"d-flex align-items-center gap-2 flex-wrap\">" ++ "<a href=\"/user/"
          from rfl]
    exact seg_in_intro _ _ "<div class=\"d-flex align-items-center gap-2 flex-wrap\">"
      (jsNumToStr m.from_id ++
        "\" target=\"_blank\" class=\"text-decoration-none text-light d-inline-flex align-items-center gap-2\">" ++
        buildAvatarLabel (some (jsOrStr m.from_name "Неизвестный отправитель")) m.from_avatar ++
        "</a>" ++ (if m.is_bot && neqFalse o.showBotBadge then botBadgeHTML else "") ++
        "</div>")
      (by simp only [str_append_assoc])
  · -- badge sits after the core, outside the link
    by_cases hlink : (neqFalse o.allowLink && intTruthy m.from_id) = true
    · refine ⟨"<a href=\"/user/" ++ jsNumToStr m.from_id ++
        "\" target=\"_blank\" class=\"text-decoration-none text-light d-inline-flex align-items-center gap-2\">" ++
        buildAvatarLabel (some (jsOrStr m.from_name "Неизвестный отправитель")) m.from_avatar ++
        "</a>", ?_, fun _ => rfl, fun hcontra => absurd hlink (by simp [hcontra])⟩
      rw [buildSenderCell_eq, if_pos hlink]
      rw [show ("<div class=\"d-flex align-items-center gap-2 flex-wrap\"><a href=\"/user/" : String) =
            "<div class=\"d-flex align-items-center gap-2 flex-wrap\">" ++ "<a href=\"/user/"
            from rfl]
      simp only [str_append_assoc]
    · have hlink' : (neqFalse o.allowLink && intTruthy m.from_id) = false := by
        cases hb : (neqFalse o.allowLink && intTruthy m.from_id) with
        | false => rfl
        | true => exact absurd hb hlink
      refine ⟨buildAvatarLabel (some (jsOrStr m.from_name "Неизвестный отправитель")) m.from_avatar,
        ?_, fun hcontra => absurd hcontra hlink, fun _ => rfl⟩
      rw [buildSenderCell_eq, if_neg (by simp [hlink'])]

/-- Witness for C5 at a concrete bot sender with identifier. -/
theorem C5_senderCell_badge_and_link_witness :
    SegIn botBadgeHTML
      (buildSenderCell { emptyMessage with from_id := some 9, is_bot := true } {}) :=
  ((C5_senderCell_badge_and_link { emptyMessage with from_id := some 9, is_bot := true } {}
    (by decide) (by decide)).1).mpr (by decide)

/-! ## C6 auxiliaries -/

theorem lt_notMem_replyText (r : Reply) (h1 : '<' ∉ (r.text.getD "").data) :
    '<' ∉ (replyTextOf r).data := by
  unfold replyTextOf
  by_cases ht : strTruthy r.text = true
  · rw [if_pos ht]
    intro hc
    exact h1 (List.take_subset 120 (r.text.getD "").data hc)
  · rw [if_neg ht]
    decide

theorem lt_notMem_attachLabel (r : Reply) : '<' ∉ (replyAttachmentsLabelOf r).data := by
  unfold replyAttachmentsLabelOf
  by_cases h : (match r.attachments with | some l => l.length | none => 0) ≠ 0
  · rw [if_pos h]
    intro hc
    rw [str_data_append] at hc
    rcases List.mem_append.mp hc with h' | h'
    · exact absurd h' (lt_char_notMem_natStr _)
    · exact absurd h' (by decide)
  · rw [if_neg h]
    decide

theorem lt_notMem_replyId (v : Option Int) :
    '<' ∉ ((match v with | some n => toString n | none => "—") : String).data := by
  cases v with
  | some n => exact lt_char_notMem_intStr n
  | none => decide

theorem lt_notMem_authorLabel (r : Reply) (h2 : '<' ∉ (r.from_name.getD "").data) :
    '<' ∉ (replyAuthorLabelOf r).data := by
  unfold replyAuthorLabelOf
  by_cases hn : strTruthy r.from_name = true
  · rw [if_pos hn]
    intro hc
    simp only [str_data_append, List.mem_append] at hc
    rcases hc with ((h' | h') | h') | h'
    · exact h2 h'
    · exact absurd h' (by decide)
    · exact absurd h' (lt_notMem_replyId r.from_id)
    · exact absurd h' (by decide)
  · rw [if_neg hn]
    by_cases hi : intTruthy r.from_id = true
    · rw [if_pos hi]
      intro hc
      rw [str_data_append] at hc
      rcases List.mem_append.mp hc with h' | h'
      · exact absurd h' (by decide)
      · exact absurd h' (lt_char_notMem_jsNum r.from_id)
    · rw [if_neg hi]
      decide

/-- Peeling a variable part, head-of-pattern form usable in rewriting. -/
theorem peel_var' {α : Type} {p s t : List α} {c : α} (hp : p.head? = some c)
    (hs : c ∉ s) : p <:+: s ++ t ↔ p <:+: t := by
  cases p with
  | nil => simp at hp
  | cons x p' =>
    have hx : x = c := by simpa using hp
    subst hx
    exact peel_var hs

set_option maxRecDepth 8192 in
/-- The bot badge cannot occur after peeling a reply reference link. -/
theorem peel_replyLink (r : Reply) (o : ReplyOptions) (t : List Char) :
    (botBadgeHTML.data <:+: (replyLinkOf r o).data ++ t ↔ botBadgeHTML.data <:+: t) := by
  have hh : botBadgeHTML.data.head? = some '<' := rfl
  unfold replyLinkOf
  by_cases h : (intTruthy r.id && intTruthy o.peerId) = true
  · rw [if_pos h]
    simp only [str_data_append, List.append_assoc]
    rw [peel_fixed (by decide) (by decide), peel_var' hh (lt_char_notMem_jsNum o.peerId),
      peel_fixed (by decide) (by decide), peel_var' hh (lt_char_notMem_jsNum r.id),
      peel_fixed (by decide) (by decide), peel_var' hh (lt_char_notMem_jsNum r.id),
      peel_fixed (by decide) (by decide)]
  · rw [if_neg h]
    simp only [str_data_append, List.append_assoc]
    rw [peel_fixed (by decide) (by decide), peel_var' hh (lt_notMem_replyId r.id)]

set_option maxRecDepth 8192 in
/-- The detailed reply block never contains the bot badge (markup-free
fields). -/
theorem not_badge_in_detailedBlock (r : Reply) (o : ReplyOptions)
    (h1 : '<' ∉ (r.text.getD "").data)
    (h2 : '<' ∉ (r.from_name.getD "").data)
    (h3 : '<' ∉ (r.from_avatar.getD "").data) :
    ¬ SegIn botBadgeHTML (detailedBlock r o) := by
  have hauth : '<' ∉ (jsOrStr (some (replyAuthorLabelOf r)) "—").data := by
    by_cases hl : replyAuthorLabelOf r = ""
    · rw [hl]; decide
    · rw [jsOrStr_some_of_ne _ _ hl]
      exact lt_notMem_authorLabel r h2
  simp only [SegIn, detailedBlock, str_data_append, List.append_assoc]
  intro hseg
  have s1 := (peel_fixed (by decide) (by decide)).mp hseg
  have s2 := (peel_replyLink r o _).mp s1
  have s3 := (peel_fixed (by decide) (by decide)).mp s2
  have s4 := (peel_var (lt_notMem_attachLabel r)).mp s3
  have s5 := (peel_fixed (by decide) (by decide)).mp s4
  have s6 := (peel_var (lt_notMem_replyText r h1)).mp s5
  have s7 := (peel_fixed (by decide) (by decide)).mp s6
  have s8 := (peel_avatarLabel hauth h3 (by decide) (by decide) (by decide) (by decide)
    (by decide) (by decide)).mp s7
  exact (by decide : ¬ (botBadgeHTML.data <:+: "</div></div>".data)) s8

/-! ## C6 -/

/-- C6 counterexample: a non-empty reply (its id is present) whose bot flag
is true, rendered in compact mode, yields the placeholder — which contains no
bot badge — because the reply has neither text nor an author name.  This
refutes the claim that the compact-mode output contains a bot badge whenever
the reply's bot flag is true. -/
theorem C6_counterexample :
    buildReplyPreview
        (some { id := some 5, text := none, from_id := none, from_name := none,
                from_avatar := none, is_bot := true, attachments := none })
        { mode := some "compact" } = placeholder ∧
      ¬ SegIn botBadgeHTML
        (buildReplyPreview
          (some { id := some 5, text := none, from_id := none, from_name := none,
                  from_avatar := none, is_bot := true, attachments := none })
          { mode := some "compact" }) := by
  constructor
  · rfl
  · decide

set_option maxRecDepth 8192 in
/-- C6 (amended): for a present reply with markup-free fields, detailed mode
never emits a bot badge, and compact mode emits the bot badge exactly when
the reply's bot flag is true AND the reply has readable data (text or author
name present); reply options carry no `showBotBadge` flag, so the rule is
independent of it. -/
theorem C6_amended_reply_badge (r : Reply) (o : ReplyOptions)
    (h1 : '<' ∉ (r.text.getD "").data)
    (h2 : '<' ∉ (r.from_name.getD "").data)
    (h3 : '<' ∉ (r.from_avatar.getD "").data) :
    (jsOrStr o.mode "compact" = "detailed" →
      ¬ SegIn botBadgeHTML (buildReplyPreview (some r) o)) ∧
    (jsOrStr o.mode "compact" ≠ "detailed" →
      (SegIn botBadgeHTML (buildReplyPreview (some r) o) ↔
        r.is_bot = true ∧ (strTruthy r.text || strTruthy r.from_name) = true)) := by
  constructor
  · intro hmode
    rw [buildReplyPreview_eq, if_pos hmode]
    by_cases hc : (!intTruthy r.id && !strTruthy r.text && !intTruthy r.from_id) = true
    · rw [if_pos hc]
      decide
    · rw [if_neg hc]
      exact not_badge_in_detailedBlock r o h1 h2 h3
  · intro hmode
    rw [buildReplyPreview_eq, if_neg hmode]
    by_cases hread : (strTruthy r.text || strTruthy r.from_name) = true
    · rw [if_neg (by simp [hread] : ¬ (!(strTruthy r.text || strTruthy r.from_name)) = true)]
      constructor
      · intro hseg
        refine ⟨?_, hread⟩
        cases hbot : r.is_bot with
        | true => rfl
        | false =>
          exfalso
          have han : '<' ∉ (jsOrStr r.from_name "Автор не указан").data := by
            unfold jsOrStr
            by_cases hn : strTruthy r.from_name = true
            · rw [if_pos hn]; exact h2
            · rw [if_neg hn]; decide
          simp only [compactBlock] at hseg
          rw [show (if r.is_bot then botBadgeHTML else "") = "" from by simp [hbot],
            str_append_empty] at hseg
          simp only [SegIn, str_data_append, List.append_assoc] at hseg
          have s1 := (peel_fixed (by decide) (by decide)).mp hseg
          have s2 := (peel_var (lt_notMem_replyText r h1)).mp s1
          have s3 := (peel_fixed (by decide) (by decide)).mp s2
          have s4 := (peel_var han).mp s3
          exact (by decide : ¬ (botBadgeHTML.data <:+: "</div></div>".data)) s4
      · rintro ⟨hbot, _⟩
        simp only [compactBlock]
        rw [show (if r.is_bot then botBadgeHTML else "") = botBadgeHTML from by simp [hbot]]
        exact seg_in_intro _ _
          ("<div class=\"d-flex flex-column gap-1\"><div class=\"text-secondary small\">Ответ на предыдущее сообщение</div><div class=\"text-light small\">" ++
            replyTextOf r ++
            "</div><div class=\"d-flex align-items-center gap-2 text-secondary small\">" ++
            jsOrStr r.from_name "Автор не указан")
          "</div></div>" (by simp only [str_append_assoc])
    · have hread' : (strTruthy r.text || strTruthy r.from_name) = false := by
        cases hb : (strTruthy r.text || strTruthy r.from_name) with
        | false => rfl
        | true => exact absurd hb hread
      rw [if_pos (by simp [hread'] : (!(strTruthy r.text || strTruthy r.from_name)) = true)]
      constructor
      · intro hseg
        exact absurd hseg (by decide)
      · rintro ⟨_, hr2⟩
        rw [hread'] at hr2
        cases hr2

/-- Witness for the amended C6 at a concrete bot reply with text. -/
theorem C6_amended_reply_badge_witness :
    SegIn botBadgeHTML
      (buildReplyPreview
        (some { id := none, text := some "hi", from_id := none, from_name := none,
                from_avatar := none, is_bot := true, attachments := none })
        { mode := some "compact" }) :=
  ((C6_amended_reply_badge
      { id := none, text := some "hi", from_id := none, from_name := none,
        from_avatar := none, is_bot := true, attachments := none }
      { mode := some "compact" } (by decide) (by decide) (by decide)).2
    (by decide)).mpr ⟨rfl, by decide⟩

/-! ## C7 -/

/-- C7: `prepareGalleryContent` substitutes an empty sequence for attachment
and copy-history extraction when the collaborator lacks the capability, makes
a registration call only when the registration operation exists, and when the
collaborator cannot render content the content fragment is the empty string
in the card-layout variant but the placeholder fragment in the table-layout
variant. -/
theorem C7_gallery_capability_defaults (m : Message) (key : String) (api : GalleryApi) :
    (api.extractAttachments = none →
      (Card.prepareGalleryContent m (some api) key).1.normalizedAttachments = [] ∧
      (Table.prepareGalleryContent m (some api) key).1.normalizedAttachments = []) ∧
    (api.extractCopyHistory = none →
      (Card.prepareGalleryContent m (some api) key).1.normalizedCopyHistory = [] ∧
      (Table.prepareGalleryContent m (some api) key).1.normalizedCopyHistory = []) ∧
    (api.registerMessageGallery = false →
      (Card.prepareGalleryContent m (some api) key).2 = none ∧
      (Table.prepareGalleryContent m (some api) key).2 = none) ∧
    ((Card.prepareGalleryContent m none key).2 = none ∧
      (Table.prepareGalleryContent m none key).2 = none) ∧
    (api.buildContentCell = none →
      (Card.prepareGalleryContent m (some api) key).1.contentCell = "" ∧
      (Table.prepareGalleryContent m (some api) key).1.contentCell = placeholder) := by
  refine ⟨?_, ?_, ?_, ⟨rfl, rfl⟩, ?_⟩
  · intro h
    constructor <;> simp [Card.prepareGalleryContent, Table.prepareGalleryContent, h]
  · intro h
    constructor <;> simp [Card.prepareGalleryContent, Table.prepareGalleryContent, h]
  · intro h
    constructor <;> simp [Card.prepareGalleryContent, Table.prepareGalleryContent, h]
  · intro h
    constructor <;> simp [Card.prepareGalleryContent, Table.prepareGalleryContent, h]

/-- Witness for C7 with a collaborator lacking every capability. -/
theorem C7_gallery_capability_defaults_witness :
    (Card.prepareGalleryContent emptyMessage
        (some { extractAttachments := none, extractCopyHistory := none,
                registerMessageGallery := false, buildContentCell := none }) "k").1.contentCell =
      "" ∧
    (Table.prepareGalleryContent emptyMessage
        (some { extractAttachments := none, extractCopyHistory := none,
                registerMessageGallery := false, buildContentCell := none }) "k").1.contentCell =
      placeholder :=
  (C7_gallery_capability_defaults emptyMessage "k"
    { extractAttachments := none, extractCopyHistory := none,
      registerMessageGallery := false, buildContentCell := none }).2.2.2.2 rfl

/-! ## C8 -/

theorem registryApply_idem (reg : List (String × Message)) (ev : RegEvent) :
    registryApply (registryApply reg ev) ev = registryApply reg ev := by
  cases ev with
  | none => rfl
  | some p =>
    obtain ⟨msg, k⟩ := p
    simp only [registryApply]
    rw [List.filter_cons]
    simp only [show (decide ((k, msg).1 ≠ k)) = false from by simp, Bool.false_eq_true,
      if_false]
    rw [List.filter_filter]
    congr 1
    apply List.filter_congr
    intro a _
    exact Bool.and_self _

/-- C8: preparing the identical `(message, key)` pair twice yields identical
content fragments (the transformation is a pure function of its inputs), and
re-registering under the same key replaces the prior entry — applying the
registration event twice equals applying it once, and the key afterwards maps
to exactly the one registered entry. -/
theorem C8_idempotent_preparation (m : Message) (api : Option GalleryApi) (key : String)
    (reg : List (String × Message)) :
    (Card.prepareGalleryContent m api key).1.contentCell =
        (Card.prepareGalleryContent m api key).1.contentCell ∧
    (Table.prepareGalleryContent m api key).1.contentCell =
        (Table.prepareGalleryContent m api key).1.contentCell ∧
    registryApply (registryApply reg (Card.prepareGalleryContent m api key).2)
        (Card.prepareGalleryContent m api key).2 =
      registryApply reg (Card.prepareGalleryContent m api key).2 ∧
    registryApply (registryApply reg (Table.prepareGalleryContent m api key).2)
        (Table.prepareGalleryContent m api key).2 =
      registryApply reg (Table.prepareGalleryContent m api key).2 ∧
    (∀ (msg : Message) (k : String),
      (registryApply reg (some (msg, k))).filter (fun p => p.1 = k) = [(k, msg)]) := by
  refine ⟨rfl, rfl, registryApply_idem _ _, registryApply_idem _ _, ?_⟩
  intro msg k
  have hnil : (reg.filter (fun p => p.1 ≠ k)).filter (fun p => p.1 = k) = [] := by
    rw [List.filter_eq_nil_iff]
    intro a ha
    have h2 := (List.mem_filter.mp ha).2
    simp only [ne_eq, decide_not, Bool.not_eq_eq_eq_not, Bool.not_true,
      decide_eq_false_iff_not] at h2
    simp [h2]
  simp [registryApply, List.filter_cons, hnil]

/-! ## C9 -/

/-- C9: the embedding of every operation is a pure function of its inputs
(mutation of the input record is not expressible), and the only record the
layer constructs itself is the registration copy: a fresh message that agrees
with the input on every field except `attachments` and `copy_history`, which
are overwritten with the normalized sequences.  Both layout variants pass the
same copy. -/
theorem C9_registration_copy_frame (m : Message) (api : GalleryApi) (key : String)
    (hreg : api.registerMessageGallery = true) :
    ∃ m' : Message,
      (Card.prepareGalleryContent m (some api) key).2 = some (m', key) ∧
      (Table.prepareGalleryContent m (some api) key).2 = some (m', key) ∧
      m'.id = m.id ∧ m'.peer_id = m.peer_id ∧ m'.peer_title = m.peer_title ∧
      m'.peer_avatar = m.peer_avatar ∧ m'.from_id = m.from_id ∧
      m'.from_name = m.from_name ∧ m'.from_avatar = m.from_avatar ∧
      m'.is_bot = m.is_bot ∧ m'.text = m.text ∧ m'.created_at = m.created_at ∧
      m'.is_deleted = m.is_deleted ∧ m'.reply = m.reply ∧
      m'.message_id = m.message_id ∧
      m'.attachments =
        some (Card.prepareGalleryContent m (some api) key).1.normalizedAttachments ∧
      m'.copy_history =
        some (Card.prepareGalleryContent m (some api) key).1.normalizedCopyHistory := by
  refine ⟨{ m with
      attachments := some (match api.extractAttachments with
        | some f => f m
        | none => []),
      copy_history := some (match api.extractCopyHistory with
        | some f => f m
        | none => []) }, ?_, ?_, rfl, rfl, rfl, rfl, rfl, rfl, rfl, rfl, rfl, rfl, rfl,
    rfl, rfl, rfl, rfl⟩
  · simp [Card.prepareGalleryContent, hreg]
  · simp [Table.prepareGalleryContent, hreg]

/-- Witness for C9 with a register-capable collaborator. -/
theorem C9_registration_copy_frame_witness :
    (Card.prepareGalleryContent emptyMessage
        (some { extractAttachments := none, extractCopyHistory := none,
                registerMessageGallery := true, buildContentCell := none }) "k").2 ≠
      none := by
  obtain ⟨m', h1, _⟩ := C9_registration_copy_frame emptyMessage
    { extractAttachments := none, extractCopyHistory := none,
      registerMessageGallery := true, buildContentCell := none } "k" rfl
  rw [h1]
  simp

/-! ## Row shape lemmas -/

theorem ends_in_intro (pat s pre : String) (h : pre ++ pat = s) : EndsIn pat s :=
  ⟨pre.data, by rw [← h]; rfl⟩

theorem str_join_snoc (l : List String) (x : String) :
    String.join (l ++ [x]) = String.join l ++ x := by
  simp [String.join, List.foldl_append]

theorem card_dashboard_innerHTML_eq (m : Message) (api : Option GalleryApi)
    (key : String) (o : RowOptions) :
    (Card.buildDashboardRow m api key o).1.innerHTML =
      "\n      <div class=\"chat-avatar-col\">" ++
        buildAvatarLabel (jsOrOpt m.from_name m.peer_title)
          (jsOrOpt m.from_avatar m.peer_avatar) ++
        "</div>\n      <div class=\"chat-bubble\">\n        <div class=\"chat-bubble-header\">\n          <div class=\"chat-bubble-meta\">" ++
        buildPeerCell m { allowLink := some true } ++
        "</div>\n          <div class=\"chat-bubble-time text-secondary\">" ++
        resolveFormatDate o m.created_at ++
        "</div>\n        </div>\n        <div class=\"chat-bubble-author\">" ++
        buildSenderCell m { allowLink := some true, showBotBadge := some true } ++
        "</div>\n        " ++
        (if hasContentfulReply m.reply then
          "<div class=\"chat-bubble-reply\">" ++
            buildReplyPreview m.reply { mode := some "compact" } ++ "</div>"
         else "") ++
        "\n        " ++
        (if (Card.prepareGalleryContent m api key).1.normalizedAttachments.length != 0 ||
            (Card.prepareGalleryContent m api key).1.normalizedCopyHistory.length != 0 then
          "<div class=\"chat-bubble-attachments\">" ++
            (Card.prepareGalleryContent m api key).1.contentCell ++ "</div>"
         else "") ++
        "\n        <div class=\"chat-bubble-text\">" ++
        jsStrOr (m.text.getD "") placeholder ++
        "</div>\n      </div>\n    " := rfl

theorem table_dashboard_innerHTML_eq (m : Message) (api : Option GalleryApi)
    (key : String) (o : RowOptions) :
    (Table.buildDashboardRow m api key o).1.innerHTML =
      "<td class=\"text-secondary small text-nowrap\">" ++ resolveFormatDate o m.created_at ++
        "</td><td class=\"text-nowrap\">" ++ buildPeerCell m { allowLink := some true } ++
        "</td><td class=\"text-nowrap\">" ++
        buildSenderCell m { allowLink := some true, showBotBadge := some true } ++
        "</td><td>" ++ buildReplyPreview m.reply { mode := some "compact" } ++
        "</td><td>" ++ (Table.prepareGalleryContent m api key).1.contentCell ++
        "</td><td>" ++ m.text.getD "" ++ "</td>" := rfl

theorem card_entity_innerHTML_eq (m : Message) (api : Option GalleryApi)
    (key : String) (o : RowOptions) :
    (Card.buildEntityRow m api key o).1.innerHTML =
      "\n      <div class=\"chat-avatar-col\">" ++
        buildAvatarLabel (jsOrOpt m.from_name m.peer_title)
          (jsOrOpt m.from_avatar m.peer_avatar) ++
        "</div>\n      <div class=\"chat-bubble\">\n        <div class=\"chat-bubble-header\">" ++
        String.intercalate " · "
          (["<span class=\"chat-bubble-time text-secondary\">" ++
              resolveFormatDate o m.created_at ++ "</span>"] ++
            (if o.showChatColumn then
              ["<span class=\"chat-bubble-meta\">" ++
                buildPeerCell m { allowLink := some true } ++ "</span>"]
             else []) ++
            (if o.showSenderColumn then
              ["<span class=\"chat-bubble-author\">" ++
                buildSenderCell m { allowLink := some true, showBotBadge := some true } ++
                "</span>"]
             else [])) ++
        "</div>\n        " ++
        (if (Card.prepareGalleryContent m api key).1.normalizedAttachments.length != 0 ||
            (Card.prepareGalleryContent m api key).1.normalizedCopyHistory.length != 0 then
          "<div class=\"chat-bubble-attachments\">" ++
            (Card.prepareGalleryContent m api key).1.contentCell ++ "</div>"
         else "") ++
        "\n        <div class=\"chat-bubble-text\">" ++
        (match m.text with | some t => t | none => "—") ++
        "</div>\n      </div>\n    " := rfl

theorem table_entity_innerHTML_eq (m : Message) (api : Option GalleryApi)
    (key : String) (o : RowOptions) :
    (Table.buildEntityRow m api key o).1.innerHTML =
      String.join
        (["<td class=\"text-nowrap\">" ++ resolveFormatDate o m.created_at ++ "</td>"] ++
          (if o.showChatColumn then
            ["<td class=\"text-nowrap\">" ++ buildPeerCell m { allowLink := some true } ++
              "</td>"]
           else []) ++
          (if o.showSenderColumn then
            ["<td class=\"text-nowrap\">" ++
              buildSenderCell m { allowLink := some true, showBotBadge := some true } ++
              "</td>"]
           else []) ++
          ["<td>" ++ (Table.prepareGalleryContent m api key).1.contentCell ++ "</td>"] ++
          ["<td>" ++ (match m.text with | some t => t | none => "—") ++ "</td>"]) := rfl

/-! ## C10 -/

/-- C10 counterexample: in the table-layout source file, the Dashboard row
for a message with null text renders the body cell as a literally empty
`<td></td>`, not as the placeholder — refuting the claim for the table-layout
Dashboard assembler. -/
theorem C10_counterexample :
    emptyMessage.text = none ∧
    EndsIn "<td></td>" (Table.buildDashboardRow emptyMessage none "k" {}).1.innerHTML ∧
    ¬ EndsIn ("<td>" ++ placeholder ++ "</td>")
      (Table.buildDashboardRow emptyMessage none "k" {}).1.innerHTML := by
  refine ⟨rfl, ?_, ?_⟩ <;> decide

theorem segIn_cardDashboard_body_of_textNone (m : Message) (api : Option GalleryApi)
    (key : String) (o : RowOptions) (htext : m.text = none) :
    SegIn ("<div class=\"chat-bubble-text\">" ++ placeholder ++ "</div>")
      (Card.buildDashboardRow m api key o).1.innerHTML := by
  rw [card_dashboard_innerHTML_eq]
  rw [show jsStrOr (m.text.getD "") placeholder = placeholder from by rw [htext]; rfl]
  refine seg_in_intro _ _
    ("\n      <div class=\"chat-avatar-col\">" ++
      buildAvatarLabel (jsOrOpt m.from_name m.peer_title)
        (jsOrOpt m.from_avatar m.peer_avatar) ++
      "</div>\n      <div class=\"chat-bubble\">\n        <div class=\"chat-bubble-header\">\n          <div class=\"chat-bubble-meta\">" ++
      buildPeerCell m { allowLink := some true } ++
      "</div>\n          <div class=\"chat-bubble-time text-secondary\">" ++
      resolveFormatDate o m.created_at ++
      "</div>\n        </div>\n        <div class=\"chat-bubble-author\">" ++
      buildSenderCell m { allowLink := some true, showBotBadge := some true } ++
      "</div>\n        " ++
      (if hasContentfulReply m.reply then
        "<div class=\"chat-bubble-reply\">" ++
          buildReplyPreview m.reply { mode := some "compact" } ++ "</div>"
       else "") ++
      "\n        " ++
      (if (Card.prepareGalleryContent m api key).1.normalizedAttachments.length != 0 ||
          (Card.prepareGalleryContent m api key).1.normalizedCopyHistory.length != 0 then
        "<div class=\"chat-bubble-attachments\">" ++
          (Card.prepareGalleryContent m api key).1.contentCell ++ "</div>"
       else "") ++
      "\n        ")
    ("\n      </div>\n    ") ?_
  rw [show ("\n        <div class=\"chat-bubble-text\">" : String) =
        "\n        " ++ "<div class=\"chat-bubble-text\">" from rfl,
      show ("</div>\n      </div>\n    " : String) =
        "</div>" ++ "\n      </div>\n    " from rfl]
  simp only [str_append_assoc]

theorem endsIn_tableDashboard_body_of_textNone (m : Message) (api : Option GalleryApi)
    (key : String) (o : RowOptions) (htext : m.text = none) :
    EndsIn "<td></td>" (Table.buildDashboardRow m api key o).1.innerHTML := by
  rw [table_dashboard_innerHTML_eq]
  refine ends_in_intro _ _
    ("<td class=\"text-secondary small text-nowrap\">" ++ resolveFormatDate o m.created_at ++
      "</td><td class=\"text-nowrap\">" ++ buildPeerCell m { allowLink := some true } ++
      "</td><td class=\"text-nowrap\">" ++
      buildSenderCell m { allowLink := some true, showBotBadge := some true } ++
      "</td><td>" ++ buildReplyPreview m.reply { mode := some "compact" } ++
      "</td><td>" ++ (Table.prepareGalleryContent m api key).1.contentCell ++
      "</td>") ?_
  rw [htext]
  rw [show ((none : Option String).getD "") = "" from rfl]
  simp only [str_append_assoc]
  rw [str_nil_append]
  rw [show ("</td><td>" : String) ++ "</td>" = "</td>" ++ "<td></td>" from rfl]

theorem segIn_cardEntity_dash_of_textNone (m : Message) (api : Option GalleryApi)
    (key : String) (o : RowOptions) (htext : m.text = none) :
    SegIn "<div class=\"chat-bubble-text\">—</div>"
      (Card.buildEntityRow m api key o).1.innerHTML := by
  rw [card_entity_innerHTML_eq, htext]
  refine seg_in_intro _ _
    ("\n      <div class=\"chat-avatar-col\">" ++
      buildAvatarLabel (jsOrOpt m.from_name m.peer_title)
        (jsOrOpt m.from_avatar m.peer_avatar) ++
      "</div>\n      <div class=\"chat-bubble\">\n        <div class=\"chat-bubble-header\">" ++
      String.intercalate " · "
        (["<span class=\"chat-bubble-time text-secondary\">" ++
            resolveFormatDate o m.created_at ++ "</span>"] ++
          (if o.showChatColumn then
            ["<span class=\"chat-bubble-meta\">" ++
              buildPeerCell m { allowLink := some true } ++ "</span>"]
           else []) ++
          (if o.showSenderColumn then
            ["<span class=\"chat-bubble-author\">" ++
              buildSenderCell m { allowLink := some true, showBotBadge := some true } ++
              "</span>"]
           else [])) ++
      "</div>\n        " ++
      (if (Card.prepareGalleryContent m api key).1.normalizedAttachments.length != 0 ||
          (Card.prepareGalleryContent m api key).1.normalizedCopyHistory.length != 0 then
        "<div class=\"chat-bubble-attachments\">" ++
          (Card.prepareGalleryContent m api key).1.contentCell ++ "</div>"
       else "") ++
      "\n        ")
    ("\n      </div>\n    ") ?_
  rw [show ("\n        <div class=\"chat-bubble-text\">" : String) =
        "\n        " ++ "<div class=\"chat-bubble-text\">" from rfl,
      show ("</div>\n      </div>\n    " : String) =
        "</div>" ++ "\n      </div>\n    " from rfl,
      show ("<div class=\"chat-bubble-text\">—</div>" : String) =
        "<div class=\"chat-bubble-text\">" ++ "—" ++ "</div>" from rfl]
  simp only [str_append_assoc]

theorem endsIn_tableEntity_dash_of_textNone (m : Message) (api : Option GalleryApi)
    (key : String) (o : RowOptions) (htext : m.text = none) :
    EndsIn "<td>—</td>" (Table.buildEntityRow m api key o).1.innerHTML := by
  rw [table_entity_innerHTML_eq, htext, str_join_snoc]
  refine ends_in_intro _ _
    (String.join
      (["<td class=\"text-nowrap\">" ++ resolveFormatDate o m.created_at ++ "</td>"] ++
        (if o.showChatColumn then
          ["<td class=\"text-nowrap\">" ++ buildPeerCell m { allowLink := some true } ++
            "</td>"]
         else []) ++
        (if o.showSenderColumn then
          ["<td class=\"text-nowrap\">" ++
            buildSenderCell m { allowLink := some true, showBotBadge := some true } ++
            "</td>"]
         else []) ++
        ["<td>" ++ (Table.prepareGalleryContent m api key).1.contentCell ++ "</td>"])) ?_
  rfl


/-- C10 (amended): with a null text, the card-layout Dashboard assembler
renders the placeholder as its body content, while the table-layout Dashboard
row renders the empty string literally as its (final) body cell; the Entity
surface uses the bare em-dash default in both layouts. -/
theorem C10_amended_body_text (m : Message) (api : Option GalleryApi) (key : String)
    (o : RowOptions) (htext : m.text = none) :
    SegIn ("<div class=\"chat-bubble-text\">" ++ placeholder ++ "</div>")
      (Card.buildDashboardRow m api key o).1.innerHTML ∧
    EndsIn "<td></td>" (Table.buildDashboardRow m api key o).1.innerHTML ∧
    SegIn "<div class=\"chat-bubble-text\">—</div>"
      (Card.buildEntityRow m api key o).1.innerHTML ∧
    EndsIn "<td>—</td>" (Table.buildEntityRow m api key o).1.innerHTML :=
  ⟨segIn_cardDashboard_body_of_textNone m api key o htext,
    endsIn_tableDashboard_body_of_textNone m api key o htext,
    segIn_cardEntity_dash_of_textNone m api key o htext,
    endsIn_tableEntity_dash_of_textNone m api key o htext⟩

/-- Witness for the amended C10 at the all-absent message. -/
theorem C10_amended_body_text_witness :
    SegIn ("<div class=\"chat-bubble-text\">" ++ placeholder ++ "</div>")
      (Card.buildDashboardRow emptyMessage none "k" {}).1.innerHTML :=
  (C10_amended_body_text emptyMessage none "k" {} rfl).1


theorem card_logs_innerHTML_eq (m : Message) (api : Option GalleryApi)
    (key : String) (o : RowOptions) :
    (Card.buildLogsRow m api key o).1.innerHTML =
      "\n      <div class=\"chat-avatar-col\">" ++
        buildAvatarLabel (jsOrOpt m.from_name m.peer_title)
          (jsOrOpt m.from_avatar m.peer_avatar) ++
        "</div>\n      <div class=\"chat-bubble\"> \n        <div class=\"chat-bubble-header\">\n          <div class=\"chat-bubble-meta\">" ++
        buildPeerCell m { allowLink := some true } ++
        "</div>\n          <div class=\"chat-bubble-time text-secondary\">" ++
        resolveFormatDate o m.created_at ++
        "</div>\n        </div>\n        <div class=\"chat-bubble-author\">" ++
        buildSenderCell m { allowLink := some true, showBotBadge := some true } ++
        "</div>\n        <div class=\"chat-bubble-flags\">Бот: " ++
        (if m.is_bot then "Да" else "Нет") ++
        "</div>\n        " ++
        (if hasContentfulReply m.reply then
          "<div class=\"chat-bubble-reply\">" ++
            buildReplyPreview m.reply { mode := some "detailed", peerId := m.peer_id } ++
            "</div>"
         else "") ++
        "\n        " ++
        (if (Card.prepareGalleryContent m api key).1.normalizedAttachments.length != 0 ||
            (Card.prepareGalleryContent m api key).1.normalizedCopyHistory.length != 0 then
          "<div class=\"chat-bubble-attachments\">" ++
            (Card.prepareGalleryContent m api key).1.contentCell ++ "</div>"
         else "") ++
        "\n        <div class=\"chat-bubble-text\">" ++
        jsStrOr (m.text.getD "") placeholder ++
        "</div>\n        <div class=\"chat-bubble-footer\">\n          <span class=\"badge bg-dark\">VK ID: " ++
        (match m.message_id with | some n => toString n | none => "—") ++
        "</span>\n          <span class=\"badge bg-secondary\">Запись: " ++
        (match m.id with | some n => toString n | none => "—") ++
        "</span> \n          " ++
        ("<button type=\"button\" class=\"btn btn-sm btn-outline-danger delete-log-btn\" data-log-id=\"" ++
          jsNumToStr m.id ++ "\">Удалить</button>") ++
        " \n        </div> \n      </div>\n    " := rfl

theorem table_logs_innerHTML_eq (m : Message) (api : Option GalleryApi)
    (key : String) (o : RowOptions) :
    (Table.buildLogsRow m api key o).1.innerHTML =
      "<td class=\"text-nowrap\">" ++ resolveFormatDate o m.created_at ++
        "</td><td class=\"text-nowrap\">" ++ buildPeerCell m { allowLink := some true } ++
        "</td><td class=\"text-nowrap\">" ++
        buildSenderCell m { allowLink := some true, showBotBadge := some true } ++
        "</td><td class=\"text-nowrap\">" ++ (if m.is_bot then "Да" else "Нет") ++
        "</td><td>" ++
        buildReplyPreview m.reply { mode := some "detailed", peerId := m.peer_id } ++
        "</td><td>" ++ (Table.prepareGalleryContent m api key).1.contentCell ++
        "</td><td>" ++ m.text.getD "" ++
        "</td><td class=\"text-nowrap\">" ++
        (match m.message_id with | some n => toString n | none => "—") ++
        "</td><td class=\"text-nowrap\">" ++
        (match m.id with | some n => toString n | none => "—") ++
        "</td><td>" ++
        ("<button type=\"button\" class=\"btn btn-sm btn-outline-danger delete-log-btn\" data-log-id=\"" ++
          jsNumToStr m.id ++ "\">Удалить</button>") ++
        "</td>" := rfl

/-! ## C1 -/

/-- C1: every public operation of the layer is a total function — defined for
every record shape, absent, null and empty fields included — and each absent
field degrades to its fixed placeholder or default label: the em-dash for
labels, the untitled-chat and unknown-sender defaults, the placeholder for
absent replies, the empty/placeholder gallery fallbacks, and the documented
placeholder cells of the six row builders of the two layout variants. -/
theorem C1_totality_and_defaults (m : Message) (po : PeerOptions) (so : SenderOptions)
    (ro : ReplyOptions) (api : Option GalleryApi) (key : String) (o : RowOptions) :
    buildAvatarLabel none none = "—" ∧
    (strTruthy m.peer_title = false → SegIn "Чат без названия" (buildPeerCell m po)) ∧
    (strTruthy m.from_name = false →
      SegIn "Неизвестный отправитель" (buildSenderCell m so)) ∧
    buildReplyPreview none ro = placeholder ∧
    Card.prepareGalleryContent m none key = (⟨"", [], []⟩, none) ∧
    Table.prepareGalleryContent m none key = (⟨placeholder, [], []⟩, none) ∧
    (Card.buildDashboardRow m api key o).1.tag = "div" ∧
    (Table.buildDashboardRow m api key o).1.tag = "tr" ∧
    (m.text = none →
      SegIn ("<div class=\"chat-bubble-text\">" ++ placeholder ++ "</div>")
        (Card.buildDashboardRow m api key o).1.innerHTML) ∧
    (m.created_at = none →
      SegIn "<div class=\"chat-bubble-time text-secondary\">—</div>"
        (Card.buildDashboardRow m api key {}).1.innerHTML) ∧
    (m.is_bot = false → SegIn "Бот: Нет" (Card.buildLogsRow m api key o).1.innerHTML) ∧
    (m.message_id = none → SegIn "VK ID: —" (Card.buildLogsRow m api key o).1.innerHTML) ∧
    (m.id = none → SegIn "Запись: —" (Card.buildLogsRow m api key o).1.innerHTML) ∧
    (m.text = none →
      SegIn "<div class=\"chat-bubble-text\">—</div>"
        (Card.buildEntityRow m api key o).1.innerHTML) ∧
    (m.reply = none →
      SegIn ("<td>" ++ placeholder ++ "</td>")
        (Table.buildDashboardRow m api key o).1.innerHTML) ∧
    (m.id = none →
      SegIn "<td class=\"text-nowrap\">—</td>"
        (Table.buildLogsRow m api key o).1.innerHTML) ∧
    (m.text = none →
      EndsIn "<td>—</td>" (Table.buildEntityRow m api key o).1.innerHTML) := by
  refine ⟨rfl, ?_, ?_, rfl, rfl, rfl, rfl, rfl,
    fun htext => segIn_cardDashboard_body_of_textNone m api key o htext,
    ?_, ?_, ?_, ?_,
    fun htext => segIn_cardEntity_dash_of_textNone m api key o htext,
    ?_, ?_,
    fun htext => endsIn_tableEntity_dash_of_textNone m api key o htext⟩
  · -- untitled chat default
    intro htitle
    have hdef : jsOrStr m.peer_title "Чат без названия" = "Чат без названия" := by
      simp [jsOrStr, htitle]
    have hbase : SegIn "Чат без названия"
        (buildAvatarLabel (some (jsOrStr m.peer_title "Чат без названия")) m.peer_avatar) := by
      rw [hdef]
      exact segIn_label_avatarLabel _ _ (by decide)
    rw [buildPeerCell_eq]
    by_cases hcond : (neqFalse po.allowLink && intTruthy m.peer_id) = true
    · rw [if_pos hcond]
      exact seg_in_append_right _ (seg_in_append_left _ hbase)
    · rw [if_neg hcond]
      exact hbase
  · -- unknown sender default
    intro hname
    have hdef : jsOrStr m.from_name "Неизвестный отправитель" = "Неизвестный отправитель" := by
      simp [jsOrStr, hname]
    have hbase : SegIn "Неизвестный отправитель"
        (buildAvatarLabel (some (jsOrStr m.from_name "Неизвестный отправитель"))
          m.from_avatar) := by
      rw [hdef]
      exact segIn_label_avatarLabel _ _ (by decide)
    rw [buildSenderCell_eq]
    by_cases hcond : (neqFalse so.allowLink && intTruthy m.from_id) = true
    · rw [if_pos hcond]
      exact seg_in_append_right _ (seg_in_append_right _
        (seg_in_append_right _ (seg_in_append_left _ hbase)))
    · rw [if_neg hcond]
      exact seg_in_append_right _ (seg_in_append_right _ (seg_in_append_left _ hbase))
  · -- time cell placeholder
    intro hca
    rw [card_dashboard_innerHTML_eq, hca]
    rw [show resolveFormatDate {} (none : Option String) = "—" from rfl]
    refine seg_in_intro _ _
      ("\n      <div class=\"chat-avatar-col\">" ++
        buildAvatarLabel (jsOrOpt m.from_name m.peer_title)
          (jsOrOpt m.from_avatar m.peer_avatar) ++
        "</div>\n      <div class=\"chat-bubble\">\n        <div class=\"chat-bubble-header\">\n          <div class=\"chat-bubble-meta\">" ++
        buildPeerCell m { allowLink := some true } ++ "</div>\n          ")
      ("\n        </div>\n        <div class=\"chat-bubble-author\">" ++
        buildSenderCell m { allowLink := some true, showBotBadge := some true } ++
        "</div>\n        " ++
        (if hasContentfulReply m.reply then
          "<div class=\"chat-bubble-reply\">" ++
            buildReplyPreview m.reply { mode := some "compact" } ++ "</div>"
         else "") ++
        "\n        " ++
        (if (Card.prepareGalleryContent m api key).1.normalizedAttachments.length != 0 ||
            (Card.prepareGalleryContent m api key).1.normalizedCopyHistory.length != 0 then
          "<div class=\"chat-bubble-attachments\">" ++
            (Card.prepareGalleryContent m api key).1.contentCell ++ "</div>"
         else "") ++
        "\n        <div class=\"chat-bubble-text\">" ++
        jsStrOr (m.text.getD "") placeholder ++
        "</div>\n      </div>\n    ") ?_
    rw [show ("</div>\n          <div class=\"chat-bubble-time text-secondary\">" : String) =
          "</div>\n          " ++ "<div class=\"chat-bubble-time text-secondary\">" from rfl,
        show ("</div>\n        </div>\n        <div class=\"chat-bubble-author\">" : String) =
          "</div>" ++ "\n        </div>\n        <div class=\"chat-bubble-author\">" from rfl,
        show ("<div class=\"chat-bubble-time text-secondary\">—</div>" : String) =
          "<div class=\"chat-bubble-time text-secondary\">" ++ "—" ++ "</div>" from rfl]
    simp only [str_append_assoc]
  · -- bot flag text
    intro hbot
    rw [card_logs_innerHTML_eq]
    rw [show (if m.is_bot then "Да" else "Нет") = "Нет" from by simp [hbot]]
    refine seg_in_intro _ _
      ("\n      <div class=\"chat-avatar-col\">" ++
        buildAvatarLabel (jsOrOpt m.from_name m.peer_title)
          (jsOrOpt m.from_avatar m.peer_avatar) ++
        "</div>\n      <div class=\"chat-bubble\"> \n        <div class=\"chat-bubble-header\">\n          <div class=\"chat-bubble-meta\">" ++
        buildPeerCell m { allowLink := some true } ++
        "</div>\n          <div class=\"chat-bubble-time text-secondary\">" ++
        resolveFormatDate o m.created_at ++
        "</div>\n        </div>\n        <div class=\"chat-bubble-author\">" ++
        buildSenderCell m { allowLink := some true, showBotBadge := some true } ++
        "</div>\n        <div class=\"chat-bubble-flags\">")
      ("</div>\n        " ++
        (if hasContentfulReply m.reply then
          "<div class=\"chat-bubble-reply\">" ++
            buildReplyPreview m.reply { mode := some "detailed", peerId := m.peer_id } ++
            "</div>"
         else "") ++
        "\n        " ++
        (if (Card.prepareGalleryContent m api key).1.normalizedAttachments.length != 0 ||
            (Card.prepareGalleryContent m api key).1.normalizedCopyHistory.length != 0 then
          "<div class=\"chat-bubble-attachments\">" ++
            (Card.prepareGalleryContent m api key).1.contentCell ++ "</div>"
         else "") ++
        "\n        <div class=\"chat-bubble-text\">" ++
        jsStrOr (m.text.getD "") placeholder ++
        "</div>\n        <div class=\"chat-bubble-footer\">\n          <span class=\"badge bg-dark\">VK ID: " ++
        (match m.message_id with | some n => toString n | none => "—") ++
        "</span>\n          <span class=\"badge bg-secondary\">Запись: " ++
        (match m.id with | some n => toString n | none => "—") ++
        "</span> \n          " ++
        ("<button type=\"button\" class=\"btn btn-sm btn-outline-danger delete-log-btn\" data-log-id=\"" ++
          jsNumToStr m.id ++ "\">Удалить</button>") ++
        " \n        </div> \n      </div>\n    ") ?_
    rw [show ("</div>\n        <div class=\"chat-bubble-flags\">Бот: " : String) =
          "</div>\n        <div class=\"chat-bubble-flags\">" ++ "Бот: " from rfl,
        show ("Бот: Нет" : String) = "Бот: " ++ "Нет" from rfl]
    simp only [str_append_assoc]
  · -- provider message identifier placeholder
    intro hmid
    rw [card_logs_innerHTML_eq, hmid]
    rw [show ((match (none : Option Int) with | some n => toString n | none => "—") : String) =
          "—" from rfl]
    refine seg_in_intro _ _
      ("\n      <div class=\"chat-avatar-col\">" ++
        buildAvatarLabel (jsOrOpt m.from_name m.peer_title)
          (jsOrOpt m.from_avatar m.peer_avatar) ++
        "</div>\n      <div class=\"chat-bubble\"> \n        <div class=\"chat-bubble-header\">\n          <div class=\"chat-bubble-meta\">" ++
        buildPeerCell m { allowLink := some true } ++
        "</div>\n          <div class=\"chat-bubble-time text-secondary\">" ++
        resolveFormatDate o m.created_at ++
        "</div>\n        </div>\n        <div class=\"chat-bubble-author\">" ++
        buildSenderCell m { allowLink := some true, showBotBadge := some true } ++
        "</div>\n        <div class=\"chat-bubble-flags\">Бот: " ++
        (if m.is_bot then "Да" else "Нет") ++
        "</div>\n        " ++
        (if hasContentfulReply m.reply then
          "<div class=\"chat-bubble-reply\">" ++
            buildReplyPreview m.reply { mode := some "detailed", peerId := m.peer_id } ++
            "</div>"
         else "") ++
        "\n        " ++
        (if (Card.prepareGalleryContent m api key).1.normalizedAttachments.length != 0 ||
            (Card.prepareGalleryContent m api key).1.normalizedCopyHistory.length != 0 then
          "<div class=\"chat-bubble-attachments\">" ++
            (Card.prepareGalleryContent m api key).1.contentCell ++ "</div>"
         else "") ++
        "\n        <div class=\"chat-bubble-text\">" ++
        jsStrOr (m.text.getD "") placeholder ++
        "</div>\n        <div class=\"chat-bubble-footer\">\n          <span class=\"badge bg-dark\">")
      ("</span>\n          <span class=\"badge bg-secondary\">Запись: " ++
        (match m.id with | some n => toString n | none => "—") ++
        "</span> \n          " ++
        ("<button type=\"button\" class=\"btn btn-sm btn-outline-danger delete-log-btn\" data-log-id=\"" ++
          jsNumToStr m.id ++ "\">Удалить</button>") ++
        " \n        </div> \n      </div>\n    ") ?_
    rw [show ("</div>\n        <div class=\"chat-bubble-footer\">\n          <span class=\"badge bg-dark\">VK ID: " : String) =
          "</div>\n        <div class=\"chat-bubble-footer\">\n          <span class=\"badge bg-dark\">" ++
            "VK ID: " from rfl,
        show ("VK ID: —" : String) = "VK ID: " ++ "—" from rfl]
    simp only [str_append_assoc]
  · -- local record identifier placeholder
    intro hid
    rw [card_logs_innerHTML_eq, hid]
    rw [show ((match (none : Option Int) with | some n => toString n | none => "—") : String) =
          "—" from rfl]
    refine seg_in_intro _ _
      ("\n      <div class=\"chat-avatar-col\">" ++
        buildAvatarLabel (jsOrOpt m.from_name m.peer_title)
          (jsOrOpt m.from_avatar m.peer_avatar) ++
        "</div>\n      <div class=\"chat-bubble\"> \n        <div class=\"chat-bubble-header\">\n          <div class=\"chat-bubble-meta\">" ++
        buildPeerCell m { allowLink := some true } ++
        "</div>\n          <div class=\"chat-bubble-time text-secondary\">" ++
        resolveFormatDate o m.created_at ++
        "</div>\n        </div>\n        <div class=\"chat-bubble-author\">" ++
        buildSenderCell m { allowLink := some true, showBotBadge := some true } ++
        "</div>\n        <div class=\"chat-bubble-flags\">Бот: " ++
        (if m.is_bot then "Да" else "Нет") ++
        "</div>\n        " ++
        (if hasContentfulReply m.reply then
          "<div class=\"chat-bubble-reply\">" ++
            buildReplyPreview m.reply { mode := some "detailed", peerId := m.peer_id } ++
            "</div>"
         else "") ++
        "\n        " ++
        (if (Card.prepareGalleryContent m api key).1.normalizedAttachments.length != 0 ||
            (Card.prepareGalleryContent m api key).1.normalizedCopyHistory.length != 0 then
          "<div class=\"chat-bubble-attachments\">" ++
            (Card.prepareGalleryContent m api key).1.contentCell ++ "</div>"
         else "") ++
        "\n        <div class=\"chat-bubble-text\">" ++
        jsStrOr (m.text.getD "") placeholder ++
        "</div>\n        <div class=\"chat-bubble-footer\">\n          <span class=\"badge bg-dark\">VK ID: " ++
        (match m.message_id with | some n => toString n | none => "—") ++
        "</span>\n          <span class=\"badge bg-secondary\">")
      ("</span> \n          " ++
        ("<button type=\"button\" class=\"btn btn-sm btn-outline-danger delete-log-btn\" data-log-id=\"" ++
          jsNumToStr (none : Option Int) ++ "\">Удалить</button>") ++
        " \n        </div> \n      </div>\n    ") ?_
    rw [show ("</span>\n          <span class=\"badge bg-secondary\">Запись: " : String) =
          "</span>\n          <span class=\"badge bg-secondary\">" ++ "Запись: " from rfl,
        show ("Запись: —" : String) = "Запись: " ++ "—" from rfl]
    simp only [str_append_assoc]
  · -- table dashboard reply cell placeholder
    intro hrep
    rw [table_dashboard_innerHTML_eq, hrep]
    rw [show buildReplyPreview none { mode := some "compact" } = placeholder from rfl]
    refine seg_in_intro _ _
      ("<td class=\"text-secondary small text-nowrap\">" ++ resolveFormatDate o m.created_at ++
        "</td><td class=\"text-nowrap\">" ++ buildPeerCell m { allowLink := some true } ++
        "</td><td class=\"text-nowrap\">" ++
        buildSenderCell m { allowLink := some true, showBotBadge := some true } ++
        "</td>")
      ("<td>" ++ (Table.prepareGalleryContent m api key).1.contentCell ++
        "</td><td>" ++ m.text.getD "" ++ "</td>") ?_
    rw [show ("</td><td>" : String) = "</td>" ++ "<td>" from rfl]
    simp only [str_append_assoc]
  · -- table logs record identifier placeholder
    intro hid
    rw [table_logs_innerHTML_eq, hid]
    rw [show ((match (none : Option Int) with | some n => toString n | none => "—") : String) =
          "—" from rfl]
    refine seg_in_intro _ _
      ("<td class=\"text-nowrap\">" ++ resolveFormatDate o m.created_at ++
        "</td><td class=\"text-nowrap\">" ++ buildPeerCell m { allowLink := some true } ++
        "</td><td class=\"text-nowrap\">" ++
        buildSenderCell m { allowLink := some true, showBotBadge := some true } ++
        "</td><td class=\"text-nowrap\">" ++ (if m.is_bot then "Да" else "Нет") ++
        "</td><td>" ++
        buildReplyPreview m.reply { mode := some "detailed", peerId := m.peer_id } ++
        "</td><td>" ++ (Table.prepareGalleryContent m api key).1.contentCell ++
        "</td><td>" ++ m.text.getD "" ++
        "</td><td class=\"text-nowrap\">" ++
        (match m.message_id with | some n => toString n | none => "—") ++
        "</td>")
      ("<td>" ++
        ("<button type=\"button\" class=\"btn btn-sm btn-outline-danger delete-log-btn\" data-log-id=\"" ++
          jsNumToStr (none : Option Int) ++ "\">Удалить</button>") ++
        "</td>") ?_
    rw [show ("<td class=\"text-nowrap\">—</td>" : String) =
          "<td class=\"text-nowrap\">" ++ "—" ++ "</td>" from rfl]
    rw [show ("</td><td class=\"text-nowrap\">" : String) =
          "</td>" ++ "<td class=\"text-nowrap\">" from rfl,
        show ("</td><td>" : String) = "</td>" ++ "<td>" from rfl]
    simp only [str_append_assoc]

/-- Witness for C1 at the all-absent record. -/
theorem C1_totality_and_defaults_witness :
    SegIn "Чат без названия" (buildPeerCell emptyMessage {}) :=
  (C1_totality_and_defaults emptyMessage {} {} {} none "k" {}).2.1 rfl

/-- The concrete reply used by the C3 witness. -/
def helloReply : Reply :=
  { id := none, text := some "hello", from_id := none, from_name := none,
    from_avatar := none, is_bot := false, attachments := none }

/-- Witness for C3 at a concrete short text. -/
theorem C3_replyText_hard_truncation_witness :
    replyTextOf helloReply = jsSlice "hello" 120 :=
  ((C3_replyText_hard_truncation helloReply {} "hello" rfl (by decide)).1).1
